import Mathlib

/-!
Verification development for the Galileo E6 HAS message receiver
(`galileo_e6_has_msg_receiver.cc`).  The C++ source is shallowly embedded:
bit strings are `List Char` of '0'/'1', machine integers are `Nat`/`Int`
with explicit `% 2^w` where the C++ type truncates, the mutable member
state of the receiver block is an explicit `RxState` record, and the
external Reed-Solomon codec is a parameter (an oracle function).
-/

set_option maxRecDepth 10000

namespace GalileoE6Has

/-! ### Constants

Widths and sizes.  The values below that do not appear literally in the
.cc file live in a header that is part of the repository; the
specification states them explicitly (data model and the constants list:
header octets per page 53, GPS IOD width 8, Galileo IOD width 10, delta
radial 13, along/cross 12, delta c0 13, code bias 11, phase bias 11,
phase discontinuity 2, toh max 3599).  Modelled from the spec: the exact
numeric values of these named constants. -/

def GALILEO_CNAV_OCTETS_IN_SUBPAGE : Nat := 53
def GALILEO_CNAV_INFORMATION_VECTOR_LENGTH : Nat := 32
def GALILEO_CNAV_MAX_NUMBER_SYMBOLS_ENCODED_BLOCK : Nat := 255
def HAS_MSG_NUMBER_MESSAGE_IDS : Nat := 32
def HAS_MSG_NUMBER_MASK_IDS : Nat := 32
def HAS_MSG_NUMBER_GNSS_IDS : Nat := 16
def HAS_MSG_NUMBER_SATELLITE_IDS : Nat := 40
def HAS_MSG_NUMBER_SIGNAL_MASKS : Nat := 16
def HAS_MSG_NSYS_LENGTH : Nat := 4
def HAS_MSG_ID_MASK_LENGTH : Nat := 4
def HAS_MSG_SATELLITE_MASK_LENGTH : Nat := 40
def HAS_MSG_SIGNAL_MASK_LENGTH : Nat := 16
def HAS_MSG_NAV_MESSAGE_LENGTH : Nat := 3

/-- Modelled from the spec: the mask reserved padding width is an
ICD-defined nonzero constant kept in the missing header file; the ICD
v1.2 value is 6.  No claim depends on its exact value. -/
def HAS_MSG_MASK_RESERVED_LENGTH : Nat := 6

def HAS_MSG_VALIDITY_INDEX_LENGTH : Nat := 4
def HAS_MSG_IOD_GPS_LENGTH : Nat := 8
def HAS_MSG_IOD_GAL_LENGTH : Nat := 10
def HAS_MSG_DELTA_RADIAL_LENGTH : Nat := 13
def HAS_MSG_DELTA_ALONG_TRACK_LENGTH : Nat := 12
def HAS_MSG_DELTA_CROSS_TRACK_LENGTH : Nat := 12
def HAS_MSG_DELTA_CLOCK_C0_MULTIPLIER_LENGTH : Nat := 2
def HAS_MSG_DELTA_CLOCK_C0_LENGTH : Nat := 13
def HAS_MSG_NSYSPRIME_LENGTH : Nat := 4
def HAS_MSG_ID_CLOCK_SUBSET_LENGTH : Nat := 4
def HAS_MSG_DELTA_CLOCK_MULTIPLIER_SUBSET_LENGTH : Nat := 2
def HAS_MSG_DELTA_CLOCK_C0_SUBSET_LENGTH : Nat := 13
def HAS_MSG_CODE_BIAS_LENGTH : Nat := 11
def HAS_MSG_PHASE_BIAS_LENGTH : Nat := 11
def HAS_MSG_PHASE_DISCONTINUITY_INDICATOR_LENGTH : Nat := 2
def HAS_MSG_GPS_SYSTEM : Nat := 0
def HAS_MSG_GALILEO_SYSTEM : Nat := 2
def HAS_MSG_NUMBER_MAX_TOH : Nat := 3599

/-- Modelled from the spec: the MT1 header size constant lives in the
missing header file.  The spec's field list (toh u12, mask_id u5,
iod_id u5, seven 1-bit flags) needs 29 bits, which contradicts the
spec's own "header 24 bits"; we follow the field list, with the
ICD-aligned 32-bit total (3 reserved bits).  No claim depends on the
exact header offsets. -/
def GALILEO_CNAV_MT1_HEADER_BITS : Nat := 32

/-! ### Bit readers (`read_has_message_body_*`)

Each C++ reader walks the '0'/'1' characters of its argument MSB-first,
shifting the accumulator left; the accumulator's machine type truncates,
which the `% 2^w` below makes explicit. -/

/-- `read_has_message_body_uint8`: accumulator is `uint8_t`. -/
def read_has_message_body_uint8 (bits : List Char) : Nat :=
  bits.foldl (fun v c => (2 * v) % 256 + (if c = '1' then 1 else 0)) 0

/-- `read_has_message_body_uint16`: accumulator is `uint16_t`. -/
def read_has_message_body_uint16 (bits : List Char) : Nat :=
  bits.foldl (fun v c => (2 * v) % 65536 + (if c = '1' then 1 else 0)) 0

/-- `read_has_message_body_uint64`: accumulator is `uint64_t`. -/
def read_has_message_body_uint64 (bits : List Char) : Nat :=
  bits.foldl (fun v c => (2 * v) % 18446744073709551616 + (if c = '1' then 1 else 0)) 0

/-- One loop iteration of `read_has_message_body_int16`, acting on the
16-bit pattern of the `int16_t` accumulator: `value *= 2` wraps mod
2^16, `value &= 0xFFFE` clears bit 0 (the sign-extension bits above
bit 15 are dropped again by the assignment), then the incoming bit is
added. -/
def int16Step (v : Nat) (c : Char) : Nat :=
  (((2 * v) % 65536) &&& 65534) + (if c = '1' then 1 else 0)

/-- `read_has_message_body_int16`: the accumulator is an `int16_t`,
modelled by its 16-bit pattern.  `bits[0] == '1'` runs `value ^= 0xFFFF`
(pattern 0xFFFF); on an empty string `bits[0]` is the NUL terminator,
which is not '1', so the default matches.  The final pattern is
reinterpreted as a signed 16-bit value. -/
def read_has_message_body_int16 (bits : List Char) : Int :=
  let v0 : Nat := if bits.headD '0' = '1' then 65535 else 0
  let v : Nat := bits.foldl int16Step v0
  if v < 32768 then (v : Int) else (v : Int) - 65536

/-- The `while (n) { c += n & 1; n >>= 1; }` popcount loop used by the
code-bias and phase-bias blocks. -/
def popcountFuel : Nat → Nat → Nat
  | _, 0 => 0
  | 0, _ + 1 => 0
  | fuel + 1, n + 1 => ((n + 1) &&& 1) + popcountFuel fuel ((n + 1) >>> 1)

def popcountLoop (n : Nat) : Nat := popcountFuel n n

/-- `std::bitset<8>::to_string` of one octet, MSB first. -/
def byteBits (b : Nat) : List Char :=
  (List.range 8).map (fun j => if Nat.testBit b (7 - j) then '1' else '0')

/-! ### Mathematical value of a bit string (specification side) -/

/-- The plain unsigned MSB-first value of a bit string (no truncation);
this is the reference value the readers are compared against. -/
def bitsVal (bits : List Char) : Nat :=
  bits.foldl (fun v c => 2 * v + (if c = '1' then 1 else 0)) 0

/-- Two's-complement interpretation of a width-`n` bit string, from the
spec's words: MSB-first value, negative iff the leading bit is set. -/
def twosComplement (n : Nat) (bits : List Char) : Int :=
  if bits.headD '0' = '1' then (bitsVal bits : Int) - 2 ^ n else (bitsVal bits : Int)

/-! ### Data model -/

/-- `Galileo_HAS_page`: the inbound message object.  The C++ fields are
`uint8_t`; we use `Nat` and state the 8-bit range where a theorem needs
it. -/
structure Page where
  has_status : Nat
  message_type : Nat
  message_id : Nat
  message_size : Nat
  message_page_id : Nat
  has_message_string : List Char
  deriving Repr, DecidableEq

/-- The MT1 message header fields (`Galileo_HAS_data.header`). -/
structure MT1Header where
  toh : Nat
  mask_id : Nat
  iod_id : Nat
  mask_flag : Bool
  orbit_correction_flag : Bool
  clock_fullset_flag : Bool
  clock_subset_flag : Bool
  code_bias_flag : Bool
  phase_bias_flag : Bool
  ura_flag : Bool
  deriving Repr, DecidableEq

def MT1Header.default : MT1Header :=
  ⟨0, 0, 0, false, false, false, false, false, false, false⟩

/-- `Galileo_HAS_data`: the decoded record handed to PVT.  Vectors
become lists; signed `int16_t` entries become `Int`. -/
structure HASData where
  header : MT1Header
  Nsys : Nat
  gnss_id_mask : List Nat
  satellite_mask : List Nat
  signal_mask : List Nat
  cell_mask_availability_flag : List Bool
  cell_mask : List (List (List Bool))
  nav_message : List Nat
  validity_interval_index_orbit_corrections : Nat
  gnss_iod : List Nat
  delta_radial : List Int
  delta_along_track : List Int
  delta_cross_track : List Int
  validity_interval_index_clock_fullset_corrections : Nat
  delta_clock_c0_multiplier : List Nat
  iod_change_flag : List Bool
  delta_clock_c0 : List Int
  validity_interval_index_clock_subset_corrections : Nat
  Nsysprime : Nat
  gnss_id_clock_subset : List Nat
  delta_clock_c0_multiplier_clock_subset : List Nat
  satellite_submask : List (List Nat)
  iod_change_flag_clock_subset : List Bool
  delta_clock_c0_clock_subset : List Int
  validity_interval_index_code_bias_corrections : Nat
  code_bias : List (List Int)
  validity_interval_index_phase_bias_corrections : Nat
  phase_bias : List (List Int)
  phase_discontinuity_indicator : List (List Nat)
  deriving Repr, DecidableEq

/-- `Galileo_HAS_data()` default construction: empty vectors, zero
scalars (the value `d_HAS_data` is reset to before each parse). -/
def HASData.default : HASData :=
  ⟨MT1Header.default, 0, [], [], [], [], [], [], 0, [], [], [], [], 0, [], [], [],
    0, 0, [], [], [], [], [], 0, [], 0, [], []⟩

/-- `Nav_Message_Packet` as filled by this block. -/
structure NavMessagePacket where
  system : String
  signal : String
  prn : Nat
  tow_at_current_symbol_ms : Nat
  nav_message : List Char
  deriving Repr, DecidableEq

/-- The mutable member state of `galileo_e6_has_msg_receiver`.  The
per-message-id and per-mask-id tables are total functions on the index
(the C++ vectors have fixed sizes 32/32; indexing is only meaningful
below those bounds). -/
structure RxState where
  received_pids : Nat → List Nat
  C_matrix : Nat → List (List Nat)
  M_matrix : List (List Nat)
  nsat_in_mask_id : Nat → Int
  nsys_in_mask : Nat → Nat
  gnss_id_in_mask : Nat → List Nat
  satellite_mask_in_mask : Nat → List Nat
  signal_mask_in_mask : Nat → List Nat
  cell_mask_availability_in_mask : Nat → List Bool
  cell_mask_in_mask : Nat → List (List (List Bool))
  nav_message_in_mask : Nat → List Nat
  HAS_data : HASData
  new_message : Bool
  enable_navdata_monitor : Bool
  nav_msg_packet : NavMessagePacket

attribute [ext] RxState

/-- A zeroed 255 x 53 page-slot matrix (one `d_C_matrix` slot). -/
def zeroCSlot : List (List Nat) :=
  List.replicate GALILEO_CNAV_MAX_NUMBER_SYMBOLS_ENCODED_BLOCK
    (List.replicate GALILEO_CNAV_OCTETS_IN_SUBPAGE 0)

/-- A zeroed 32 x 53 information matrix (`d_M_matrix` reset value). -/
def zeroMMatrix : List (List Nat) :=
  List.replicate GALILEO_CNAV_INFORMATION_VECTOR_LENGTH
    (List.replicate GALILEO_CNAV_OCTETS_IN_SUBPAGE 0)

/-- The constructor's initialization of the receiver state: empty pid
lists, zeroed matrices and mask cache, `d_nav_msg_packet` fields
`system="E"`, `signal="E6"`, `prn=0`, `tow_at_current_symbol_ms=0`. -/
def initState : RxState where
  received_pids := fun _ => []
  C_matrix := fun _ => zeroCSlot
  M_matrix := zeroMMatrix
  nsat_in_mask_id := fun _ => 0
  nsys_in_mask := fun _ => 0
  gnss_id_in_mask := fun _ => List.replicate HAS_MSG_NUMBER_GNSS_IDS 0
  satellite_mask_in_mask := fun _ => List.replicate HAS_MSG_NUMBER_GNSS_IDS 0
  signal_mask_in_mask := fun _ => List.replicate HAS_MSG_NUMBER_GNSS_IDS 0
  cell_mask_availability_in_mask := fun _ => List.replicate HAS_MSG_NUMBER_GNSS_IDS false
  cell_mask_in_mask := fun _ =>
    List.replicate HAS_MSG_NUMBER_GNSS_IDS
      (List.replicate HAS_MSG_NUMBER_SATELLITE_IDS
        (List.replicate HAS_MSG_NUMBER_SIGNAL_MASKS false))
  nav_message_in_mask := fun _ => List.replicate HAS_MSG_NUMBER_GNSS_IDS 0
  HAS_data := HASData.default
  new_message := false
  enable_navdata_monitor := false
  nav_msg_packet := ⟨"E", "E6", 0, 0, []⟩

/-! ### MT1 header parse (`read_MT1_header`)

The header parameter offset/width pairs live in the missing header
file.  Modelled from the spec: field order toh u12, mask_id u5,
iod_id u5, then the seven flags, each read MSB-first from the 32-bit
header string. -/

def readMT1Header (bits : List Char) : MT1Header where
  toh := bitsVal (bits.take 12)
  mask_id := bitsVal ((bits.drop 12).take 5)
  iod_id := bitsVal ((bits.drop 17).take 5)
  mask_flag := bits.getD 22 '0' = '1'
  orbit_correction_flag := bits.getD 23 '0' = '1'
  clock_fullset_flag := bits.getD 24 '0' = '1'
  clock_subset_flag := bits.getD 25 '0' = '1'
  code_bias_flag := bits.getD 26 '0' = '1'
  phase_bias_flag := bits.getD 27 '0' = '1'
  ura_flag := bits.getD 28 '0' = '1'

/-- `message = std::string(message.begin() + n, message.end())`: throws
(`std::length_error`, caught as `std::exception` by the decoder) when
fewer than `n` characters remain, otherwise drops `n` characters. -/
def advanceBits (n : Nat) (msg : List Char) : Option (List Char) :=
  if n ≤ msg.length then some (msg.drop n) else none

/-! ### MT1 body parse (`read_MT1_body`)

The parser mutates the member state field by field and advances a local
`message` cursor; a failed advance throws, leaving all mutations made so
far in place.  Each block below returns the state as mutated up to the
failure point together with an `ok` flag. -/

/-- The cell-mask bit matrix read row-major (satellite-major) from the
stream: `cell_mask[i][s][sig] = (message[s*nc+sig] == '1')`.  Every
entry of the freshly allocated `ns x nc` matrix is assigned exactly
once. -/
def readCellMatrix (msg : List Char) (ns nc : Nat) : List (List Bool) :=
  (List.range ns).map (fun s => (List.range nc).map (fun sg => msg.getD (s * nc + sg) '0' = '1'))

/-- One iteration of the mask-block system loop (`for i < Nsys`). -/
def maskSysStep (maskId i : Nat) (st : RxState) (msg : List Char) (Nsat : Int) :
    RxState × List Char × Int × Bool :=
  let g := read_has_message_body_uint8 (msg.take HAS_MSG_ID_MASK_LENGTH)
  let st := {st with
    HAS_data := {st.HAS_data with gnss_id_mask := st.HAS_data.gnss_id_mask.set i g}
    gnss_id_in_mask :=
      Function.update st.gnss_id_in_mask maskId ((st.gnss_id_in_mask maskId).set i g)}
  match advanceBits HAS_MSG_ID_MASK_LENGTH msg with
  | none => (st, msg, Nsat, false)
  | some msg =>
  let satBits := msg.take HAS_MSG_SATELLITE_MASK_LENGTH
  let sm := read_has_message_body_uint64 satBits
  let onesSat := satBits.count '1'
  let st := {st with
    HAS_data := {st.HAS_data with satellite_mask := st.HAS_data.satellite_mask.set i sm}
    satellite_mask_in_mask :=
      Function.update st.satellite_mask_in_mask maskId ((st.satellite_mask_in_mask maskId).set i sm)}
  let Nsat := Nsat + (onesSat : Int)
  match advanceBits HAS_MSG_SATELLITE_MASK_LENGTH msg with
  | none => (st, msg, Nsat, false)
  | some msg =>
  let sigBits := msg.take HAS_MSG_SIGNAL_MASK_LENGTH
  let sgm := read_has_message_body_uint16 sigBits
  let onesSig := sigBits.count '1'
  let st := {st with
    HAS_data := {st.HAS_data with signal_mask := st.HAS_data.signal_mask.set i sgm}
    signal_mask_in_mask :=
      Function.update st.signal_mask_in_mask maskId ((st.signal_mask_in_mask maskId).set i sgm)}
  match advanceBits HAS_MSG_SIGNAL_MASK_LENGTH msg with
  | none => (st, msg, Nsat, false)
  | some msg =>
  let st := {st with HAS_data := {st.HAS_data with
    cell_mask := st.HAS_data.cell_mask.set i
      (List.replicate onesSat (List.replicate onesSig false))}}
  let avail := msg.take 1 = ['1']
  let st := {st with
    HAS_data := {st.HAS_data with
      cell_mask_availability_flag := st.HAS_data.cell_mask_availability_flag.set i avail}
    cell_mask_availability_in_mask :=
      Function.update st.cell_mask_availability_in_mask maskId
        ((st.cell_mask_availability_in_mask maskId).set i avail)}
  match advanceBits 1 msg with
  | none => (st, msg, Nsat, false)
  | some msg =>
  let st := {st with HAS_data := {st.HAS_data with
    cell_mask := st.HAS_data.cell_mask.set i (readCellMatrix msg onesSat onesSig)}}
  match advanceBits (onesSat * onesSig) msg with
  | none => (st, msg, Nsat, false)
  | some msg =>
  let nv := read_has_message_body_uint8 (msg.take HAS_MSG_NAV_MESSAGE_LENGTH)
  let st := {st with
    HAS_data := {st.HAS_data with nav_message := st.HAS_data.nav_message.set i nv}
    nav_message_in_mask :=
      Function.update st.nav_message_in_mask maskId ((st.nav_message_in_mask maskId).set i nv)}
  match advanceBits HAS_MSG_NAV_MESSAGE_LENGTH msg with
  | none => (st, msg, Nsat, false)
  | some msg => (st, msg, Nsat, true)

/-- The mask-block system loop over the index list `[0, ..., Nsys-1]`. -/
def maskSysLoop (maskId : Nat) :
    List Nat → RxState → List Char → Int → RxState × List Char × Int × Bool
  | [], st, msg, Nsat => (st, msg, Nsat, true)
  | i :: rest, st, msg, Nsat =>
    match maskSysStep maskId i st msg Nsat with
    | (st, msg, Nsat, true) => maskSysLoop maskId rest st msg Nsat
    | (st, msg, Nsat, false) => (st, msg, Nsat, false)

/-- Result of the mask phase of `read_MT1_body` (everything up to and
including the toh sanity gate): mutated state, remaining message, the
local `have_mask` and `Nsat`, and whether a throw occurred. -/
structure MaskPhaseOut where
  st : RxState
  msg : List Char
  have_mask : Bool
  Nsat : Int
  ok : Bool

/-- The toh sanity gate (`discard data if crazy Values`): executed only
when the mask phase reaches it without throwing. -/
def tohGate (st : RxState) (msg : List Char) (hm : Bool) (Nsat : Int) : MaskPhaseOut :=
  if st.HAS_data.header.toh > HAS_MSG_NUMBER_MAX_TOH then
    ⟨{st with nsat_in_mask_id :=
        Function.update st.nsat_in_mask_id st.HAS_data.header.mask_id 0},
      msg, false, Nsat, true⟩
  else ⟨st, msg, hm, Nsat, true⟩

/-- The mask phase of `read_MT1_body`: mask block when `mask_flag`,
otherwise the mask-cache lookup, followed by the toh gate.  Note the
source quirks kept here: for `Nsys = 0` the four Nsys bits are *not*
consumed (the advance sits inside the `Nsys != 0` branch), and
`d_nsys_in_mask` is written before that branch. -/
def maskPhase (st : RxState) (msg : List Char) : MaskPhaseOut :=
  let maskId := st.HAS_data.header.mask_id
  if st.HAS_data.header.mask_flag then
    let nsys := read_has_message_body_uint8 (msg.take HAS_MSG_NSYS_LENGTH)
    let st := {st with
      HAS_data := {st.HAS_data with Nsys := nsys}
      nsys_in_mask := Function.update st.nsys_in_mask maskId nsys}
    if nsys = 0 then tohGate st msg false 0
    else
      match advanceBits HAS_MSG_NSYS_LENGTH msg with
      | none => ⟨st, msg, false, 0, false⟩
      | some msg =>
        let st := {st with HAS_data := {st.HAS_data with
          gnss_id_mask := List.replicate nsys 0
          cell_mask := List.replicate nsys
            (List.replicate HAS_MSG_NUMBER_SATELLITE_IDS
              (List.replicate HAS_MSG_NUMBER_SIGNAL_MASKS false))
          cell_mask_availability_flag := List.replicate nsys false
          nav_message := List.replicate nsys 0
          satellite_mask := List.replicate nsys 0
          signal_mask := List.replicate nsys 0}}
        match maskSysLoop maskId (List.range nsys) st msg 0 with
        | (st, msg, Nsat, true) =>
          let st := {st with
            nsat_in_mask_id := Function.update st.nsat_in_mask_id maskId Nsat
            cell_mask_in_mask := Function.update st.cell_mask_in_mask maskId st.HAS_data.cell_mask}
          match advanceBits HAS_MSG_MASK_RESERVED_LENGTH msg with
          | none => ⟨st, msg, false, Nsat, false⟩
          | some msg => tohGate st msg (Nsat ≠ 0) Nsat
        | (st, msg, Nsat, false) => ⟨st, msg, false, Nsat, false⟩
  else
    let Nsat := st.nsat_in_mask_id maskId
    if Nsat ≠ 0 then
      let nsys := st.nsys_in_mask maskId
      let st := {st with HAS_data := {st.HAS_data with
        Nsys := nsys
        gnss_id_mask := st.HAS_data.gnss_id_mask ++ (st.gnss_id_in_mask maskId).take nsys
        satellite_mask := st.HAS_data.satellite_mask ++ (st.satellite_mask_in_mask maskId).take nsys
        signal_mask := st.HAS_data.signal_mask ++ (st.signal_mask_in_mask maskId).take nsys
        cell_mask_availability_flag := st.HAS_data.cell_mask_availability_flag ++
          (st.cell_mask_availability_in_mask maskId).take nsys
        cell_mask := st.cell_mask_in_mask maskId
        nav_message := st.HAS_data.nav_message ++ (st.nav_message_in_mask maskId).take nsys}}
      tohGate st msg true Nsat
    else tohGate st msg false Nsat

/-- Sequencing of two parse steps: run the continuation only when the
first step did not throw. -/
def seqStep (a : RxState × List Char × Bool)
    (g : RxState → List Char → RxState × List Char × Bool) : RxState × List Char × Bool :=
  match a with
  | (st, msg, true) => g st msg
  | (st, msg, false) => (st, msg, false)

/-- The first `if` of the orbit satellite loop: a GPS gnss_id at the
satellite's index reads an 8-bit IOD. -/
def orbitIodGps (i : Nat) (st : RxState) (msg : List Char) : RxState × List Char × Bool :=
  if st.HAS_data.gnss_id_mask.getD i 0 = HAS_MSG_GPS_SYSTEM then
    let v := read_has_message_body_uint16 (msg.take HAS_MSG_IOD_GPS_LENGTH)
    let st := {st with HAS_data := {st.HAS_data with gnss_iod := st.HAS_data.gnss_iod.set i v}}
    match advanceBits HAS_MSG_IOD_GPS_LENGTH msg with
    | none => (st, msg, false)
    | some msg => (st, msg, true)
  else (st, msg, true)

/-- The second `if`: a Galileo gnss_id reads a 10-bit IOD.  (The two
`if`s are sequential in the source; the first one never changes
`gnss_id_mask`, and GPS ≠ Galileo, so at most one fires.) -/
def orbitIodGal (i : Nat) (st : RxState) (msg : List Char) : RxState × List Char × Bool :=
  if st.HAS_data.gnss_id_mask.getD i 0 = HAS_MSG_GALILEO_SYSTEM then
    let v := read_has_message_body_uint16 (msg.take HAS_MSG_IOD_GAL_LENGTH)
    let st := {st with HAS_data := {st.HAS_data with gnss_iod := st.HAS_data.gnss_iod.set i v}}
    match advanceBits HAS_MSG_IOD_GAL_LENGTH msg with
    | none => (st, msg, false)
    | some msg => (st, msg, true)
  else (st, msg, true)

/-- The three delta reads of the orbit satellite loop. -/
def orbitDeltas (i : Nat) (st : RxState) (msg : List Char) : RxState × List Char × Bool :=
  let dr := read_has_message_body_int16 (msg.take HAS_MSG_DELTA_RADIAL_LENGTH)
  let st := {st with HAS_data := {st.HAS_data with
    delta_radial := st.HAS_data.delta_radial.set i dr}}
  match advanceBits HAS_MSG_DELTA_RADIAL_LENGTH msg with
  | none => (st, msg, false)
  | some msg =>
  let da := read_has_message_body_int16 (msg.take HAS_MSG_DELTA_ALONG_TRACK_LENGTH)
  let st := {st with HAS_data := {st.HAS_data with
    delta_along_track := st.HAS_data.delta_along_track.set i da}}
  match advanceBits HAS_MSG_DELTA_ALONG_TRACK_LENGTH msg with
  | none => (st, msg, false)
  | some msg =>
  let dc := read_has_message_body_int16 (msg.take HAS_MSG_DELTA_CROSS_TRACK_LENGTH)
  let st := {st with HAS_data := {st.HAS_data with
    delta_cross_track := st.HAS_data.delta_cross_track.set i dc}}
  match advanceBits HAS_MSG_DELTA_CROSS_TRACK_LENGTH msg with
  | none => (st, msg, false)
  | some msg => (st, msg, true)

/-- One iteration of the orbit-correction satellite loop.  The IOD
width is selected by `d_HAS_data.gnss_id_mask[i]` where `i` is the
*satellite* loop index; a gnss_id that is neither GPS nor Galileo
matches neither `if` and no IOD bits are read. -/
def orbitSatStep (st : RxState) (msg : List Char) (i : Nat) : RxState × List Char × Bool :=
  seqStep (orbitIodGps i st msg) (fun st msg =>
    seqStep (orbitIodGal i st msg) (fun st msg => orbitDeltas i st msg))

/-- A generic sequential loop used by the remaining correction blocks:
run `f` for each index, stopping at the first failure. -/
def stepLoop (f : RxState → List Char → Nat → RxState × List Char × Bool) :
    List Nat → RxState → List Char → RxState × List Char × Bool
  | [], st, msg => (st, msg, true)
  | i :: rest, st, msg =>
    match f st msg i with
    | (st, msg, true) => stepLoop f rest st msg
    | (st, msg, false) => (st, msg, false)

/-- The orbit-correction block (`orbit_correction_flag && have_mask`). -/
def orbitBlock (st : RxState) (msg : List Char) (hm : Bool) (Nsat : Int) :
    RxState × List Char × Bool :=
  if st.HAS_data.header.orbit_correction_flag && hm then
    let v := read_has_message_body_uint8 (msg.take HAS_MSG_VALIDITY_INDEX_LENGTH)
    let st := {st with HAS_data := {st.HAS_data with
      validity_interval_index_orbit_corrections := v}}
    match advanceBits HAS_MSG_VALIDITY_INDEX_LENGTH msg with
    | none => (st, msg, false)
    | some msg =>
      let st := {st with HAS_data := {st.HAS_data with
        gnss_iod := List.replicate Nsat.toNat 0
        delta_radial := List.replicate Nsat.toNat 0
        delta_along_track := List.replicate Nsat.toNat 0
        delta_cross_track := List.replicate Nsat.toNat 0}}
      stepLoop orbitSatStep (List.range Nsat.toNat) st msg
  else (st, msg, true)

/-- One iteration of the clock full-set multiplier loop. -/
def fullsetMultStep (st : RxState) (msg : List Char) (i : Nat) : RxState × List Char × Bool :=
  let v := read_has_message_body_uint8 (msg.take HAS_MSG_DELTA_CLOCK_C0_MULTIPLIER_LENGTH)
  let st := {st with HAS_data := {st.HAS_data with
    delta_clock_c0_multiplier := st.HAS_data.delta_clock_c0_multiplier.set i v}}
  match advanceBits HAS_MSG_DELTA_CLOCK_C0_MULTIPLIER_LENGTH msg with
  | none => (st, msg, false)
  | some msg => (st, msg, true)

/-- One iteration of the clock full-set satellite loop. -/
def fullsetSatStep (st : RxState) (msg : List Char) (i : Nat) : RxState × List Char × Bool :=
  let fl := msg.getD 0 '0' = '1'
  let st := {st with HAS_data := {st.HAS_data with
    iod_change_flag := st.HAS_data.iod_change_flag.set i fl}}
  match advanceBits 1 msg with
  | none => (st, msg, false)
  | some msg =>
  let v := read_has_message_body_int16 (msg.take HAS_MSG_DELTA_CLOCK_C0_LENGTH)
  let st := {st with HAS_data := {st.HAS_data with
    delta_clock_c0 := st.HAS_data.delta_clock_c0.set i v}}
  match advanceBits HAS_MSG_DELTA_CLOCK_C0_LENGTH msg with
  | none => (st, msg, false)
  | some msg => (st, msg, true)

/-- The clock full-set block (`clock_fullset_flag && have_mask`). -/
def fullsetBlock (st : RxState) (msg : List Char) (hm : Bool) (Nsat : Int) :
    RxState × List Char × Bool :=
  if st.HAS_data.header.clock_fullset_flag && hm then
    let v := read_has_message_body_uint8 (msg.take HAS_MSG_VALIDITY_INDEX_LENGTH)
    let st := {st with HAS_data := {st.HAS_data with
      validity_interval_index_clock_fullset_corrections := v}}
    match advanceBits HAS_MSG_VALIDITY_INDEX_LENGTH msg with
    | none => (st, msg, false)
    | some msg =>
      let st := {st with HAS_data := {st.HAS_data with
        delta_clock_c0_multiplier := List.replicate st.HAS_data.Nsys 0}}
      match stepLoop fullsetMultStep (List.range st.HAS_data.Nsys) st msg with
      | (st, msg, false) => (st, msg, false)
      | (st, msg, true) =>
        let st := {st with HAS_data := {st.HAS_data with
          iod_change_flag := List.replicate Nsat.toNat false
          delta_clock_c0 := List.replicate Nsat.toNat 0}}
        stepLoop fullsetSatStep (List.range Nsat.toNat) st msg
  else (st, msg, true)

/-- One iteration of the clock-subset system loop.  Kept verbatim from
the source: the per-satellite deltas are all written to index `[i]` of
`delta_clock_c0_clock_subset` (a vector of size Nsysprime), and the
satellite count comes from `d_HAS_data.satellite_mask[i]`. -/
def subsetSysStep (st : RxState) (msg : List Char) (i : Nat) : RxState × List Char × Bool :=
  let g := read_has_message_body_uint8 (msg.take HAS_MSG_ID_CLOCK_SUBSET_LENGTH)
  let st := {st with HAS_data := {st.HAS_data with
    gnss_id_clock_subset := st.HAS_data.gnss_id_clock_subset.set i g}}
  match advanceBits HAS_MSG_ID_CLOCK_SUBSET_LENGTH msg with
  | none => (st, msg, false)
  | some msg =>
  let cm := read_has_message_body_uint8 (msg.take HAS_MSG_DELTA_CLOCK_MULTIPLIER_SUBSET_LENGTH)
  let st := {st with HAS_data := {st.HAS_data with
    delta_clock_c0_multiplier_clock_subset :=
      st.HAS_data.delta_clock_c0_multiplier_clock_subset.set i (cm + 1)}}
  match advanceBits HAS_MSG_DELTA_CLOCK_MULTIPLIER_SUBSET_LENGTH msg with
  | none => (st, msg, false)
  | some msg =>
  -- `std::bitset<40>(satellite_mask).to_string()` then count '1':
  -- the number of set bits among the low 40 bits.
  let satmask := st.HAS_data.satellite_mask.getD i 0
  let nsats := popcountLoop (satmask % 2 ^ 40)
  let st := {st with HAS_data := {st.HAS_data with
    satellite_submask := st.HAS_data.satellite_submask.set i (List.replicate nsats 0)}}
  let subLoop := stepLoop (fun st msg j =>
    let b := read_has_message_body_uint64 (msg.take 1)
    let st := {st with HAS_data := {st.HAS_data with
      satellite_submask := st.HAS_data.satellite_submask.set i
        ((st.HAS_data.satellite_submask.getD i []).set j b)}}
    match advanceBits 1 msg with
    | none => (st, msg, false)
    | some msg => (st, msg, true))
  match subLoop (List.range nsats) st msg with
  | (st, msg, false) => (st, msg, false)
  | (st, msg, true) =>
  let nsatprime := (st.HAS_data.satellite_submask.getD i []).count 1
  stepLoop (fun st msg _ =>
    let v := read_has_message_body_int16 (msg.take HAS_MSG_DELTA_CLOCK_C0_SUBSET_LENGTH)
    let st := {st with HAS_data := {st.HAS_data with
      delta_clock_c0_clock_subset := st.HAS_data.delta_clock_c0_clock_subset.set i v}}
    match advanceBits HAS_MSG_DELTA_CLOCK_C0_SUBSET_LENGTH msg with
    | none => (st, msg, false)
    | some msg => (st, msg, true)) (List.range nsatprime) st msg

/-- The clock-subset block.  Returns the possibly-invalidated
`have_mask` as well (Nsysprime = 0 clears it and evicts the cache
entry, then the block continues with its empty loops). -/
def subsetBlock (st : RxState) (msg : List Char) (hm : Bool) :
    RxState × List Char × Bool × Bool :=
  if st.HAS_data.header.clock_subset_flag && hm then
    let v := read_has_message_body_uint8 (msg.take HAS_MSG_VALIDITY_INDEX_LENGTH)
    let st := {st with HAS_data := {st.HAS_data with
      validity_interval_index_clock_subset_corrections := v}}
    match advanceBits HAS_MSG_VALIDITY_INDEX_LENGTH msg with
    | none => (st, msg, hm, false)
    | some msg =>
    let nsp := read_has_message_body_uint8 (msg.take HAS_MSG_NSYSPRIME_LENGTH)
    let st := {st with HAS_data := {st.HAS_data with Nsysprime := nsp}}
    match advanceBits HAS_MSG_NSYSPRIME_LENGTH msg with
    | none => (st, msg, hm, false)
    | some msg =>
    let hm := if nsp = 0 then false else hm
    let st := if nsp = 0 then
        {st with nsat_in_mask_id :=
          Function.update st.nsat_in_mask_id st.HAS_data.header.mask_id 0}
      else st
    let st := {st with HAS_data := {st.HAS_data with
      gnss_id_clock_subset := List.replicate nsp 0
      delta_clock_c0_multiplier_clock_subset := List.replicate nsp 0
      satellite_submask := List.replicate nsp (List.replicate HAS_MSG_NUMBER_SATELLITE_IDS 0)
      iod_change_flag_clock_subset := List.replicate nsp false
      delta_clock_c0_clock_subset := List.replicate nsp 0}}
    match stepLoop subsetSysStep (List.range nsp) st msg with
    | (st, msg, ok) => (st, msg, hm, ok)
  else (st, msg, hm, true)

/-- The per-system (satellite-count, signal-count) pair used by the
code-bias and phase-bias blocks. -/
def biasCountStep (hd : HASData) (sys : Nat) : Nat × Nat :=
  if hd.cell_mask_availability_flag.getD sys false then
    ((hd.cell_mask.getD sys []).length, ((hd.cell_mask.getD sys []).getD 0 []).length)
  else
    (popcountLoop (hd.satellite_mask.getD sys 0), popcountLoop (hd.signal_mask.getD sys 0))

/-- The inner (signal) loop of the code-bias block for one satellite
row `sat` of system `sys`. -/
def codeBiasSigStep (sys s sat : Nat) (st : RxState) (msg : List Char) (c : Nat) :
    RxState × List Char × Bool :=
  let avail := st.HAS_data.cell_mask_availability_flag.getD sys false
  if !avail || (((st.HAS_data.cell_mask.getD sys []).getD s []).getD c false) then
    let v := read_has_message_body_int16 (msg.take HAS_MSG_CODE_BIAS_LENGTH)
    let st := {st with HAS_data := {st.HAS_data with
      code_bias := st.HAS_data.code_bias.set sat
        ((st.HAS_data.code_bias.getD sat []).set c v)}}
    match advanceBits HAS_MSG_CODE_BIAS_LENGTH msg with
    | none => (st, msg, false)
    | some msg => (st, msg, true)
  else (st, msg, true)

/-- The satellite/system loops of the code-bias block, carrying the
running flat satellite counter `sat`. -/
def codeBiasSysLoop : List (Nat × Nat × Nat) → Nat → RxState → List Char →
    RxState × List Char × Bool
  | [], _, st, msg => (st, msg, true)
  | (sys, ns, nc) :: rest, sat, st, msg =>
    let inner := stepLoop (fun st msg s =>
      match stepLoop (codeBiasSigStep sys s (sat + s)) (List.range nc) st msg with
      | (st, msg, ok) => (st, msg, ok))
    match inner (List.range ns) st msg with
    | (st, msg, true) => codeBiasSysLoop rest (sat + ns) st msg
    | (st, msg, false) => (st, msg, false)

/-- The code-bias block (`code_bias_flag && have_mask`). -/
def codeBiasBlock (st : RxState) (msg : List Char) (hm : Bool) (Nsat : Int) :
    RxState × List Char × Bool :=
  if st.HAS_data.header.code_bias_flag && hm then
    let v := read_has_message_body_uint8 (msg.take HAS_MSG_VALIDITY_INDEX_LENGTH)
    let st := {st with HAS_data := {st.HAS_data with
      validity_interval_index_code_bias_corrections := v}}
    match advanceBits HAS_MSG_VALIDITY_INDEX_LENGTH msg with
    | none => (st, msg, false)
    | some msg =>
      let counts := (List.range st.HAS_data.Nsys).map (biasCountStep st.HAS_data)
      let maxSignals := counts.foldl (fun m p => max m p.2) 0
      let st := {st with HAS_data := {st.HAS_data with
        code_bias := List.replicate Nsat.toNat (List.replicate maxSignals (0 : Int))}}
      codeBiasSysLoop
        ((List.range st.HAS_data.Nsys).map (fun sys =>
          (sys, (counts.getD sys (0, 0)).1, (counts.getD sys (0, 0)).2))) 0 st msg
  else (st, msg, true)

/-- The inner (signal) loop of the phase-bias block. -/
def phaseBiasSigStep (sys s sat : Nat) (st : RxState) (msg : List Char) (p : Nat) :
    RxState × List Char × Bool :=
  let avail := st.HAS_data.cell_mask_availability_flag.getD sys false
  if !avail || (((st.HAS_data.cell_mask.getD sys []).getD s []).getD p false) then
    let v := read_has_message_body_int16 (msg.take HAS_MSG_PHASE_BIAS_LENGTH)
    let st := {st with HAS_data := {st.HAS_data with
      phase_bias := st.HAS_data.phase_bias.set sat
        ((st.HAS_data.phase_bias.getD sat []).set p v)}}
    match advanceBits HAS_MSG_PHASE_BIAS_LENGTH msg with
    | none => (st, msg, false)
    | some msg =>
    let d := read_has_message_body_uint8 (msg.take HAS_MSG_PHASE_DISCONTINUITY_INDICATOR_LENGTH)
    let st := {st with HAS_data := {st.HAS_data with
      phase_discontinuity_indicator := st.HAS_data.phase_discontinuity_indicator.set sat
        ((st.HAS_data.phase_discontinuity_indicator.getD sat []).set p d)}}
    match advanceBits HAS_MSG_PHASE_DISCONTINUITY_INDICATOR_LENGTH msg with
    | none => (st, msg, false)
    | some msg => (st, msg, true)
  else (st, msg, true)

/-- The satellite/system loops of the phase-bias block. -/
def phaseBiasSysLoop : List (Nat × Nat × Nat) → Nat → RxState → List Char →
    RxState × List Char × Bool
  | [], _, st, msg => (st, msg, true)
  | (sys, ns, np) :: rest, sat, st, msg =>
    let inner := stepLoop (fun st msg s =>
      match stepLoop (phaseBiasSigStep sys s (sat + s)) (List.range np) st msg with
      | (st, msg, ok) => (st, msg, ok))
    match inner (List.range ns) st msg with
    | (st, msg, true) => phaseBiasSysLoop rest (sat + ns) st msg
    | (st, msg, false) => (st, msg, false)

/-- The phase-bias block (`phase_bias_flag && have_mask`). -/
def phaseBiasBlock (st : RxState) (msg : List Char) (hm : Bool) (Nsat : Int) :
    RxState × List Char × Bool :=
  if st.HAS_data.header.phase_bias_flag && hm then
    let v := read_has_message_body_uint8 (msg.take HAS_MSG_VALIDITY_INDEX_LENGTH)
    let st := {st with HAS_data := {st.HAS_data with
      validity_interval_index_phase_bias_corrections := v}}
    match advanceBits HAS_MSG_VALIDITY_INDEX_LENGTH msg with
    | none => (st, msg, false)
    | some msg =>
      let counts := (List.range st.HAS_data.Nsys).map (biasCountStep st.HAS_data)
      let maxSignals := counts.foldl (fun m p => max m p.2) 0
      let st := {st with HAS_data := {st.HAS_data with
        phase_bias := List.replicate Nsat.toNat (List.replicate maxSignals (0 : Int))
        phase_discontinuity_indicator :=
          List.replicate Nsat.toNat (List.replicate maxSignals 0)}}
      phaseBiasSysLoop
        ((List.range st.HAS_data.Nsys).map (fun sys =>
          (sys, (counts.getD sys (0, 0)).1, (counts.getD sys (0, 0)).2))) 0 st msg
  else (st, msg, true)

/-- The correction blocks of `read_MT1_body`, after the mask phase.
The clock-subset block may clear `have_mask` for the blocks after it
(Nsysprime = 0). -/
def correctionPhase (st : RxState) (msg : List Char) (hm : Bool) (Nsat : Int) :
    RxState × List Char × Bool :=
  match orbitBlock st msg hm Nsat with
  | (st, msg, false) => (st, msg, false)
  | (st, msg, true) =>
  match fullsetBlock st msg hm Nsat with
  | (st, msg, false) => (st, msg, false)
  | (st, msg, true) =>
  match subsetBlock st msg hm with
  | (st, msg, _, false) => (st, msg, false)
  | (st, msg, hm, true) =>
  match codeBiasBlock st msg hm Nsat with
  | (st, msg, false) => (st, msg, false)
  | (st, msg, true) =>
  phaseBiasBlock st msg hm Nsat

/-- `read_MT1_body`: the URA block is commented out in the source, so
the parse ends after the phase-bias block.  Returns the state as
mutated up to the failure point, the success flag (`false` = a throw
that `decode_message_type1` will catch), and the remaining message. -/
def readMT1Body (st : RxState) (msg : List Char) : RxState × Bool × List Char :=
  let m := maskPhase st msg
  if m.ok then
    match correctionPhase m.st m.msg m.have_mask m.Nsat with
    | (st, msg, ok) => (st, ok, msg)
  else (m.st, false, m.msg)

/-! ### Reed-Solomon reconstruction (`decode_message_type1`)

The Reed-Solomon codec is an external collaborator; it is modelled as an
oracle taking the 255-byte column and the erasure-position list and
returning the corrected column on success. -/

def RSOracle : Type := List Nat → List Nat → Option (List Nat)

/-- The erasure-position list of `decode_message_type1`: pids
`1..message_size` then `33..255`, each included when not among the
received pids, mapped to `pid - 1`.  (The C++ first loop runs a
`uint8_t` counter to `message_size`; for `message_size = 255` that
C++ loop never terminates, so the embedding is faithful for
`message_size ≤ 254`.) -/
def erasurePositions (received : List Nat) (message_size : Nat) : List Nat :=
  ((List.range' 1 message_size).filter (fun i => ¬ i ∈ received)).map (fun i => i - 1) ++
    ((List.range' 33 223).filter (fun i => ¬ i ∈ received)).map (fun i => i - 1)

/-- One column vector handed to the codec: zeros except the received
rows, `C_column[pid-1] = C[pid-1][col]`. -/
def buildColumn (received : List Nat) (Cslot : List (List Nat)) (col : Nat) : List Nat :=
  received.foldl (fun v pid => v.set (pid - 1) ((Cslot.getD (pid - 1) []).getD col 0))
    (List.replicate GALILEO_CNAV_MAX_NUMBER_SYMBOLS_ENCODED_BLOCK 0)

/-- Copy the first 32 entries of a decoded column into column `col` of
the information matrix. -/
def writeMColumn (M : List (List Nat)) (col : Nat) (v : List Nat) : List (List Nat) :=
  (List.range GALILEO_CNAV_INFORMATION_VECTOR_LENGTH).foldl
    (fun M i => M.set i ((M.getD i []).set col (v.getD i 0))) M

/-- The vertical (per-column) decoding loop.  A codec failure aborts the
whole message, leaving the columns decoded so far in `d_M_matrix`. -/
def rsColumnLoop (rs : RSOracle) (received : List Nat) (Cslot : List (List Nat))
    (erasures : List Nat) : List Nat → List (List Nat) → List (List Nat) × Bool
  | [], M => (M, true)
  | col :: rest, M =>
    match rs (buildColumn received Cslot col) erasures with
    | none => (M, false)
    | some v => rsColumnLoop rs received Cslot erasures rest (writeMColumn M col v)

/-- The decoded MT1 bitstring: rows `0..message_size-1` of the
information matrix, each octet printed MSB-first. -/
def decodedBits (M : List (List Nat)) (message_size : Nat) : List Char :=
  (List.range message_size).flatMap (fun row =>
    (List.range GALILEO_CNAV_OCTETS_IN_SUBPAGE).flatMap (fun col =>
      byteBits ((M.getD row []).getD col 0)))

structure DecodeOut where
  st : RxState
  res : Int
  monitor : List NavMessagePacket

/-- The member state right before `read_MT1_body` is entered, given the
reconstructed information matrix already stored in `d_M_matrix`: the
nav packet's `nav_message` field updated when the monitor is enabled,
the page slot reset (`d_C_matrix` zeroed, pids cleared), `d_HAS_data`
reset, and the MT1 header parsed into it. -/
def decodeParseStart (st : RxState) (message_id message_size : Nat) : RxState :=
  let decoded := decodedBits st.M_matrix message_size
  let stMon := if st.enable_navdata_monitor then
      {st with nav_msg_packet := {st.nav_msg_packet with nav_message := decoded}}
    else st
  let st2 := {stMon with
    C_matrix := Function.update stMon.C_matrix message_id zeroCSlot
    received_pids := Function.update stMon.received_pids message_id []}
  {st2 with HAS_data :=
    {HASData.default with header := readMT1Header (decoded.take GALILEO_CNAV_MT1_HEADER_BITS)}}

/-- The tail of `decode_message_type1` after all 53 columns decoded:
publish the monitor packet when enabled, reset the slot, parse header
and body; a caught body-parse throw yields -1. -/
def decodeAfterRS (st : RxState) (message_id message_size : Nat) : DecodeOut :=
  let decoded := decodedBits st.M_matrix message_size
  let monitor := if st.enable_navdata_monitor then
      [{st.nav_msg_packet with nav_message := decoded}] else []
  match readMT1Body (decodeParseStart st message_id message_size)
      (decoded.drop GALILEO_CNAV_MT1_HEADER_BITS) with
  | (st, ok, _) => ⟨st, if ok then 0 else -1, monitor⟩

/-- `decode_message_type1`.  Returns 0 on success, -1 on the
too-many-erasures precondition, on a codec failure, or on a throwing
body parse; the nav-monitor packet (if enabled) is emitted right after
reconstruction, before the body parse. -/
def decodeMessageType1 (rs : RSOracle) (st : RxState) (message_id message_size : Nat) :
    DecodeOut :=
  let erasures := erasurePositions (st.received_pids message_id) message_size
  if erasures.length > 223 then
    ⟨{st with
        received_pids := Function.update st.received_pids message_id []
        C_matrix := Function.update st.C_matrix message_id zeroCSlot}, -1, []⟩
  else
    let st := {st with M_matrix := zeroMMatrix}
    match rsColumnLoop rs (st.received_pids message_id) (st.C_matrix message_id) erasures
        (List.range GALILEO_CNAV_OCTETS_IN_SUBPAGE) st.M_matrix with
    | (M, false) => ⟨{st with M_matrix := M}, -1, []⟩
    | (M, true) => decodeAfterRS {st with M_matrix := M} message_id message_size

/-! ### Page accumulation and the message handler -/

/-- The exceptions that can be raised while turning the page payload
into octets: `std::out_of_range` from `substr(k*8, 8)` when `k*8`
exceeds the payload length, `std::invalid_argument` from
`std::bitset<8>` when a payload character is neither '0' nor '1'. -/
inductive PageErr where
  | outOfRange
  | invalidArgument
  deriving Repr, DecidableEq

/-- Octet `k` of the page payload: `bitset<8>(payload.substr(8k, 8))`. -/
def pageByte (payload : List Char) (k : Nat) : Except PageErr Nat :=
  if 8 * k > payload.length then .error .outOfRange
  else
    let sub := (payload.drop (8 * k)).take 8
    if sub.all (fun c => c = '0' || c = '1') then .ok (bitsVal sub)
    else .error .invalidArgument

def pageBytesLoop (payload : List Char) : List Nat → Except PageErr (List Nat)
  | [] => .ok []
  | k :: rest =>
    match pageByte payload k with
    | .error e => .error e
    | .ok b =>
      match pageBytesLoop payload rest with
      | .error e => .error e
      | .ok bs => .ok (b :: bs)

/-- The 53 payload octets of a page. -/
def pageBytes (payload : List Char) : Except PageErr (List Nat) :=
  pageBytesLoop payload (List.range GALILEO_CNAV_OCTETS_IN_SUBPAGE)

/-- The accumulation part of `process_HAS_page` (input screening, then
the new-pid branch).  An exception raised while converting the payload
propagates (the state the block is left in at the throw is irrelevant to
every caller because the exception escapes the handler, so it is not
tracked here). -/
def accumulatePage (st : RxState) (p : Page) : Except PageErr RxState :=
  if p.has_status = 0 ∨ p.has_status = 1 then
    if p.message_page_id ≠ 0 then
      if p.message_type = 1 then
        if p.message_id < HAS_MSG_NUMBER_MESSAGE_IDS then
          if p.message_page_id ∈ st.received_pids p.message_id then .ok st
          else
            match pageBytes p.has_message_string with
            | .error e => .error e
            | .ok bytes =>
              .ok {st with
                received_pids := Function.update st.received_pids p.message_id
                  (st.received_pids p.message_id ++ [p.message_page_id])
                C_matrix := Function.update st.C_matrix p.message_id
                  ((st.C_matrix p.message_id).set (p.message_page_id - 1) bytes)}
        else .ok st
      else .ok st
    else .ok st
  else .ok st

/-- `process_HAS_page`: accumulate, clear `d_new_message`, and when the
received-pid count for the page's message_id equals the page's
message_size, attempt the decode and raise `d_new_message` iff it
succeeded and the cached `Nsat` for the decoded record's mask_id is
nonzero. -/
def processHASPage (rs : RSOracle) (st : RxState) (p : Page) :
    Except PageErr (RxState × List NavMessagePacket) :=
  match accumulatePage st p with
  | .error e => .error e
  | .ok st =>
    let st := {st with new_message := false}
    if (st.received_pids p.message_id).length = p.message_size then
      let d := decodeMessageType1 rs st p.message_id p.message_size
      if d.res = 0 ∧ d.st.nsat_in_mask_id d.st.HAS_data.header.mask_id ≠ 0 then
        .ok ({d.st with new_message := true}, d.monitor)
      else .ok (d.st, d.monitor)
    else .ok (st, [])

/-- `msg_handler_galileo_e6_has` on a page message: the try/catch
around the dispatch catches only `boost::bad_any_cast`, so a `PageErr`
from the accumulation propagates out; otherwise, if `d_new_message` was
raised, the decoded record is published once to the PVT port and the
flag cleared. -/
def msgHandler (rs : RSOracle) (st : RxState) (p : Page) :
    Except PageErr (RxState × Option HASData × List NavMessagePacket) :=
  match processHASPage rs st p with
  | .error e => .error e
  | .ok (st, monitor) =>
    if st.new_message then .ok ({st with new_message := false}, some st.HAS_data, monitor)
    else .ok (st, none, monitor)

/-! ### Helper lemmas on the bit readers -/

lemma bitsVal_foldl (l : List Char) (a : Nat) :
    l.foldl (fun v c => 2 * v + (if c = '1' then 1 else 0)) a =
      a * 2 ^ l.length + bitsVal l := by
  induction l generalizing a with
  | nil => simp [bitsVal]
  | cons c cs ih =>
    have hcons : bitsVal (c :: cs) =
        (2 * 0 + (if c = '1' then 1 else 0)) * 2 ^ cs.length + bitsVal cs := by
      show (c :: cs).foldl (fun v c => 2 * v + (if c = '1' then 1 else 0)) 0 = _
      rw [List.foldl_cons, ih]
    simp only [List.foldl_cons, List.length_cons]
    rw [ih, hcons]
    ring

lemma bitsVal_cons (c : Char) (cs : List Char) :
    bitsVal (c :: cs) = (if c = '1' then 1 else 0) * 2 ^ cs.length + bitsVal cs := by
  show (c :: cs).foldl (fun v c => 2 * v + (if c = '1' then 1 else 0)) 0 = _
  rw [List.foldl_cons, bitsVal_foldl]
  ring_nf

lemma bitsVal_lt (l : List Char) : bitsVal l < 2 ^ l.length := by
  induction l with
  | nil => simp [bitsVal]
  | cons c cs ih =>
    rw [bitsVal_cons, List.length_cons, pow_succ]
    have : (if c = '1' then 1 else 0) ≤ 1 := by split <;> omega
    nlinarith

lemma and_FFFE_of_even {v : Nat} (hv : v < 65536) (he : v % 2 = 0) :
    v &&& 65534 = v := by
  apply Nat.eq_of_testBit_eq
  intro i
  rw [Nat.testBit_and]
  match i with
  | 0 =>
    have h1 : Nat.testBit v 0 = false := by
      rw [Nat.testBit_zero]
      simp only [decide_eq_false_iff_not]
      omega
    simp [h1]
  | i + 1 =>
    by_cases h : i + 1 < 16
    · have h2 : Nat.testBit 65534 (i + 1) = true := by
        rw [Nat.testBit_add_one]
        norm_num
        rw [show (32767 : Nat) = 2 ^ 15 - 1 by norm_num, Nat.testBit_two_pow_sub_one]
        simpa using by omega
      simp [h2]
    · have h3 : Nat.testBit v (i + 1) = false := by
        apply Nat.testBit_lt_two_pow
        calc v < 65536 := hv
          _ = 2 ^ 16 := by norm_num
          _ ≤ 2 ^ (i + 1) := Nat.pow_le_pow_right (by norm_num) (by omega)
      simp [h3]

lemma int16Step_eq (v : Nat) (c : Char) :
    int16Step v c = 2 * v % 65536 + (if c = '1' then 1 else 0) := by
  unfold int16Step
  have he : 2 * v % 65536 % 2 = 0 := by
    rw [Nat.mod_mod_of_dvd _ (by norm_num : (2 : Nat) ∣ 65536)]
    exact Nat.mul_mod_right 2 v
  rw [and_FFFE_of_even (Nat.mod_lt _ (by norm_num)) he]

lemma int16_foldl (l : List Char) (a : Nat) (ha : a < 65536) :
    l.foldl int16Step a = (a * 2 ^ l.length + bitsVal l) % 65536 := by
  induction l generalizing a with
  | nil => simpa [bitsVal] using (Nat.mod_eq_of_lt ha).symm
  | cons c cs ih =>
    rw [List.foldl_cons, int16Step_eq]
    set b : Nat := if c = '1' then 1 else 0 with hb
    have hblt : b ≤ 1 := by rw [hb]; split <;> omega
    have hlt : 2 * a % 65536 < 65536 := Nat.mod_lt _ (by norm_num)
    have hev : 2 * a % 65536 % 2 = 0 := by
      rw [Nat.mod_mod_of_dvd _ (by norm_num : (2 : Nat) ∣ 65536)]
      exact Nat.mul_mod_right 2 a
    have hstep : 2 * a % 65536 + b < 65536 := by omega
    rw [ih _ hstep]
    have hmod : (2 * a % 65536 + b) * 2 ^ cs.length + bitsVal cs ≡
        (2 * a + b) * 2 ^ cs.length + bitsVal cs [MOD 65536] :=
      Nat.ModEq.add_right _ (Nat.ModEq.mul_right _ (Nat.ModEq.add_right b (Nat.mod_modEq _ _)))
    rw [hmod, bitsVal_cons, List.length_cons]
    congr 1
    ring

lemma read_int16_def (bits : List Char) :
    read_has_message_body_int16 bits =
      (if bits.foldl int16Step (if bits.headD '0' = '1' then 65535 else 0) < 32768
        then ((bits.foldl int16Step (if bits.headD '0' = '1' then 65535 else 0) : Nat) : Int)
        else ((bits.foldl int16Step (if bits.headD '0' = '1' then 65535 else 0) : Nat) : Int)
          - 65536) := rfl

/-- C9 helper: the two's-complement evaluation of
`read_has_message_body_int16`, for any width `1 ≤ n ≤ 15`. -/
lemma read_int16_eval (bits : List Char) (n : Nat) (hn1 : 1 ≤ n) (hn : n ≤ 15)
    (hlen : bits.length = n) :
    read_has_message_body_int16 bits = twosComplement n bits ∧
      -(2 ^ (n - 1) : Int) ≤ read_has_message_body_int16 bits ∧
      read_has_message_body_int16 bits ≤ 2 ^ (n - 1) - 1 := by
  obtain ⟨c, cs, rfl⟩ : ∃ c cs, bits = c :: cs := by
    cases bits with
    | nil => simp at hlen; omega
    | cons c cs => exact ⟨c, cs, rfl⟩
  have hm : cs.length = n - 1 := by simp at hlen; omega
  have hpow : (2 : Nat) ^ n = 2 * 2 ^ (n - 1) := by
    conv_lhs => rw [show n = (n - 1) + 1 by omega]
    ring
  have hple : (2 : Nat) ^ (n - 1) ≤ 16384 := by
    calc (2 : Nat) ^ (n - 1) ≤ 2 ^ 14 := Nat.pow_le_pow_right (by norm_num) (by omega)
      _ = 16384 := by norm_num
  have hp1 : (1 : Nat) ≤ 2 ^ (n - 1) := Nat.one_le_pow _ _ (by norm_num)
  have hcsval : bitsVal cs < 2 ^ (n - 1) := by
    have := bitsVal_lt cs
    rwa [hm] at this
  have hcastn : ((2 ^ n : Nat) : Int) = (2 : Int) ^ n := by push_cast; ring
  have hcastn1 : ((2 ^ (n - 1) : Nat) : Int) = (2 : Int) ^ (n - 1) := by push_cast; ring
  by_cases hc : c = '1'
  · subst hc
    set u := bitsVal ('1' :: cs) with hu
    have hub1 : 2 ^ (n - 1) ≤ u := by
      rw [hu, bitsVal_cons, hm, if_pos rfl]
      omega
    have hub2 : u < 2 ^ n := by
      rw [hu, bitsVal_cons, hm, if_pos rfl, hpow]
      omega
    have h2 : (2 : Nat) ^ n ≤ 32768 := by omega
    have hmod : (65535 * 2 ^ n + u) % 65536 = 65536 - 2 ^ n + u := by
      have hkey : 65535 * 2 ^ n + u = (65536 - 2 ^ n + u) + (2 ^ n - 1) * 65536 := by omega
      rw [hkey, Nat.add_mul_mod_self_right]
      exact Nat.mod_eq_of_lt (by omega)
    have heval : read_has_message_body_int16 ('1' :: cs) =
        ((65536 - 2 ^ n + u : Nat) : Int) - 65536 := by
      rw [read_int16_def, show ('1' :: cs).headD '0' = '1' from rfl, if_pos rfl,
        int16_foldl _ _ (by norm_num), List.length_cons, hm,
        show (n - 1) + 1 = n by omega, ← hu, hmod,
        if_neg (by omega : ¬ (65536 - 2 ^ n + u < 32768))]
    have htc : twosComplement n ('1' :: cs) = (u : Int) - 2 ^ n := by
      unfold twosComplement
      rw [show ('1' :: cs).headD '0' = '1' from rfl, if_pos rfl, ← hu]
    rw [heval, htc, ← hcastn, ← hcastn1]
    refine ⟨by omega, by omega, by omega⟩
  · set u := bitsVal (c :: cs) with hu
    have hub : u < 2 ^ (n - 1) := by
      rw [hu, bitsVal_cons, hm, if_neg hc]
      omega
    have hmod : (0 * 2 ^ n + u) % 65536 = u := by
      rw [Nat.zero_mul, Nat.zero_add]
      exact Nat.mod_eq_of_lt (by omega)
    have hhead : (c :: cs).headD '0' = c := rfl
    have heval : read_has_message_body_int16 (c :: cs) = (u : Int) := by
      rw [read_int16_def, hhead, if_neg hc, int16_foldl _ _ (by norm_num), List.length_cons,
        hm, show (n - 1) + 1 = n by omega, ← hu, hmod, if_pos (by omega)]
    have htc : twosComplement n (c :: cs) = (u : Int) := by
      unfold twosComplement
      rw [hhead, if_neg hc, ← hu]
    rw [heval, htc, ← hcastn1]
    refine ⟨rfl, by omega, by omega⟩

/-- C9: for every width `n` used by the body parser (11, 12, 13) and
every string of `n` '0'/'1' characters, the signed body reader returns
the two's-complement interpretation of those bits MSB-first, a value in
`[-2^(n-1), 2^(n-1)-1]`. -/
theorem read_int16_is_twos_complement (bits : List Char) (n : Nat)
    (hn : n = 11 ∨ n = 12 ∨ n = 13) (hlen : bits.length = n)
    (_hwf : ∀ c ∈ bits, c = '0' ∨ c = '1') :
    read_has_message_body_int16 bits = twosComplement n bits ∧
      -(2 ^ (n - 1) : Int) ≤ read_has_message_body_int16 bits ∧
      read_has_message_body_int16 bits ≤ 2 ^ (n - 1) - 1 :=
  read_int16_eval bits n (by omega) (by omega) hlen

/-- Witness for C9 at the 13-bit string `1000000000101`
(value `-4091`). -/
theorem read_int16_is_twos_complement_witness :
    read_has_message_body_int16 ("1000000000101".toList) =
        twosComplement 13 ("1000000000101".toList) ∧
      -(2 ^ 12 : Int) ≤ read_has_message_body_int16 ("1000000000101".toList) ∧
      read_has_message_body_int16 ("1000000000101".toList) ≤ 2 ^ 12 - 1 :=
  read_int16_is_twos_complement ("1000000000101".toList) 13
    (Or.inr (Or.inr rfl)) (by decide) (by decide)

/-! ### C2: erasure positions and the too-many-erasures precondition -/

/-- An always-failing codec oracle, usable where the codec is never
reached. -/
def rsNone : RSOracle := fun _ _ => none

/-- The identity codec oracle: returns the column unchanged (adequate
when the received pages already populate the information symbols). -/
def rsId : RSOracle := fun col _ => some col

/-- C2: (1) membership in the erasure-position list is exactly
`pid ∈ ([1..message_size] ∪ [33..255]) \ received`, with each entry
stored as `pid - 1`; (2) when the list has more than 223 entries the
decode call resets the page slot (pids cleared, C zeroed), returns -1,
touches nothing else, and publishes nothing (in particular the codec is
never invoked).  The `ms ≤ 254` bound reflects the embedding's domain:
at `message_size = 255` the C++ `uint8_t` loop counter never
terminates. -/
theorem erasure_positions_spec :
    (∀ (received : List Nat) (ms p : Nat), ms ≤ 254 →
      (p ∈ erasurePositions received ms ↔
        ((1 ≤ p + 1 ∧ p + 1 ≤ ms) ∨ (33 ≤ p + 1 ∧ p + 1 ≤ 255)) ∧ p + 1 ∉ received)) ∧
    (∀ (rs : RSOracle) (st : RxState) (mid ms : Nat),
      (erasurePositions (st.received_pids mid) ms).length > 223 →
      decodeMessageType1 rs st mid ms =
        ⟨{st with
            received_pids := Function.update st.received_pids mid []
            C_matrix := Function.update st.C_matrix mid zeroCSlot}, -1, []⟩) := by
  constructor
  · intro received ms p _hms
    unfold erasurePositions
    simp only [List.mem_append, List.mem_map, List.mem_filter, List.mem_range'_1,
      decide_eq_true_eq]
    constructor
    · rintro (⟨i, ⟨⟨h1, h2⟩, h3⟩, rfl⟩ | ⟨i, ⟨⟨h1, h2⟩, h3⟩, rfl⟩)
      · have hi : i - 1 + 1 = i := by omega
        rw [hi]
        exact ⟨Or.inl ⟨by omega, by omega⟩, h3⟩
      · have hi : i - 1 + 1 = i := by omega
        rw [hi]
        exact ⟨Or.inr ⟨by omega, by omega⟩, h3⟩
    · rintro ⟨h1 | h1, h2⟩
      · exact Or.inl ⟨p + 1, ⟨⟨by omega, by omega⟩, h2⟩, by omega⟩
      · exact Or.inr ⟨p + 1, ⟨⟨by omega, by omega⟩, h2⟩, by omega⟩
  · intro rs st mid ms h
    unfold decodeMessageType1
    rw [if_pos h]

/-- A state whose slot 0 holds the single pid 10: with
`message_size = 3` the pid lies in the untransmitted range
`(message_size, 32]`, so all of `[1..3]` and `[33..255]` are erasures
(226 > 223). -/
def stTooMany : RxState :=
  {initState with received_pids := Function.update initState.received_pids 0 [10]}

/-- Witness for C2: position 5 (pid 6) with `received = [10]`,
`message_size = 3`, and the too-many-erasures reset on `stTooMany`. -/
theorem erasure_positions_spec_witness :
    (5 ∈ erasurePositions [10] 3 ↔
      ((1 ≤ 5 + 1 ∧ 5 + 1 ≤ 3) ∨ (33 ≤ 5 + 1 ∧ 5 + 1 ≤ 255)) ∧ 5 + 1 ∉ [10]) ∧
    decodeMessageType1 rsNone stTooMany 0 3 =
      ⟨{stTooMany with
          received_pids := Function.update stTooMany.received_pids 0 []
          C_matrix := Function.update stTooMany.C_matrix 0 zeroCSlot}, -1, []⟩ :=
  ⟨erasure_positions_spec.1 [10] 3 5 (by norm_num),
    erasure_positions_spec.2 rsNone stTooMany 0 3 (by decide)⟩

/-! ### Structural lemmas on the body parser -/

/-- With `have_mask = false` every correction block is skipped: the
state and cursor pass through unchanged and no failure can occur. -/
lemma correctionPhase_skip (st : RxState) (msg : List Char) (Nsat : Int) :
    correctionPhase st msg false Nsat = (st, msg, true) := by
  unfold correctionPhase orbitBlock fullsetBlock subsetBlock codeBiasBlock phaseBiasBlock
  simp

set_option maxHeartbeats 1600000 in
/-- One mask-loop step never touches the already-parsed header. -/
lemma maskSysStep_pres (maskId i : Nat) (st : RxState) (msg : List Char) (Nsat : Int) :
    ((maskSysStep maskId i st msg Nsat).1).HAS_data.header = st.HAS_data.header := by
  simp only [maskSysStep]
  repeat' split
  all_goals rfl

/-- The mask loop never touches the already-parsed header. -/
lemma maskSysLoop_pres (maskId : Nat) (l : List Nat) :
    ∀ (st : RxState) (msg : List Char) (Nsat : Int),
      ((maskSysLoop maskId l st msg Nsat).1).HAS_data.header = st.HAS_data.header := by
  induction l with
  | nil => intro st msg Nsat; rfl
  | cons i rest ih =>
    intro st msg Nsat
    have hpres := maskSysStep_pres maskId i st msg Nsat
    rcases hstep : maskSysStep maskId i st msg Nsat with ⟨st1, msg1, Ns1, ok1⟩
    rw [hstep] at hpres
    simp only [maskSysLoop]
    rw [hstep]
    cases ok1
    · simpa using hpres
    · simpa using (ih st1 msg1 Ns1).trans hpres

/-- Equation form of `maskSysLoop_pres`. -/
lemma maskSysLoop_pres_eq {maskId : Nat} {l : List Nat} {st : RxState} {msg : List Char}
    {Nsat : Int} {st' : RxState} {msg' : List Char} {Ns' : Int} {ok' : Bool}
    (h : maskSysLoop maskId l st msg Nsat = (st', msg', Ns', ok')) :
    st'.HAS_data.header = st.HAS_data.header := by
  have hp := maskSysLoop_pres maskId l st msg Nsat
  rw [h] at hp
  exact hp

/-- Every non-throwing run of the mask phase ends in the toh gate,
applied to a state whose header is the header the phase started from. -/
lemma maskPhase_shape (st : RxState) (msg : List Char) :
    (maskPhase st msg).ok = false ∨
    ∃ st' msg' hm Ns, maskPhase st msg = tohGate st' msg' hm Ns ∧
      st'.HAS_data.header = st.HAS_data.header := by
  simp only [maskPhase]
  split
  · split
    · exact Or.inr ⟨_, _, _, _, rfl, rfl⟩
    · split
      · exact Or.inl rfl
      · rename_i msg2 hadv
        split
        · rename_i st3 msg3 Ns3 heq
          have hpres := maskSysLoop_pres_eq heq
          split
          · exact Or.inl rfl
          · rename_i msg4 hadv2
            exact Or.inr ⟨_, _, _, _, rfl, hpres⟩
        · exact Or.inl rfl
  · split
    · exact Or.inr ⟨_, _, _, _, rfl, rfl⟩
    · exact Or.inr ⟨_, _, _, _, rfl, rfl⟩

/-! ### C8: the toh sanity gate -/

/-- C8: for a record whose body parse reaches the toh gate (the mask
phase does not throw) with `toh > 3599`, `have_mask` is invalidated,
the mask cache entry for the record's mask_id is evicted
(`Nsat(mask_id) := 0`), and no correction block of the record is parsed
(the body parse returns exactly the mask-phase state and cursor).
Consequently a later record with `mask_flag = 0` whose mask_id has
`Nsat = 0` finds no usable mask: its parse succeeds but reads nothing
and changes nothing. -/
theorem toh_over_max_invalidates_mask (st : RxState) (body : List Char)
    (hok : (maskPhase st body).ok = true)
    (htoh : st.HAS_data.header.toh > HAS_MSG_NUMBER_MAX_TOH) :
    (maskPhase st body).have_mask = false ∧
    (maskPhase st body).st.nsat_in_mask_id st.HAS_data.header.mask_id = 0 ∧
    readMT1Body st body = ((maskPhase st body).st, true, (maskPhase st body).msg) ∧
    ∀ (st2 : RxState) (body2 : List Char),
      st2.HAS_data.header.mask_flag = false →
      st2.nsat_in_mask_id st2.HAS_data.header.mask_id = 0 →
      readMT1Body st2 body2 = (st2, true, body2) := by
  have hlater : ∀ (st2 : RxState) (body2 : List Char),
      st2.HAS_data.header.mask_flag = false →
      st2.nsat_in_mask_id st2.HAS_data.header.mask_id = 0 →
      readMT1Body st2 body2 = (st2, true, body2) := by
    intro st2 body2 hflag2 hns2
    have hupd : Function.update st2.nsat_in_mask_id st2.HAS_data.header.mask_id 0 =
        st2.nsat_in_mask_id := by
      rw [← hns2]
      exact Function.update_eq_self _ _
    have hst2 : ({st2 with nsat_in_mask_id := Function.update st2.nsat_in_mask_id st2.HAS_data.header.mask_id 0} : RxState) = st2 := by
      rw [hupd]
    have hmask2 : maskPhase st2 body2 = ⟨st2, body2, false, 0, true⟩ := by
      simp only [maskPhase, hflag2]
      rw [if_neg (by simp), hns2, if_neg (by simp)]
      unfold tohGate
      split
      · rw [hst2]
      · rfl
    simp only [readMT1Body, hmask2, correctionPhase_skip, if_true]
  rcases maskPhase_shape st body with hfail | ⟨st', msg', hm, Ns, heq, hpres⟩
  · rw [hfail] at hok
    exact absurd hok (by simp)
  · have hgate : tohGate st' msg' hm Ns =
        ⟨{st' with nsat_in_mask_id := Function.update st'.nsat_in_mask_id st'.HAS_data.header.mask_id 0},
          msg', false, Ns, true⟩ := by
      unfold tohGate
      rw [if_pos (by rw [hpres]; exact htoh)]
    refine ⟨by rw [heq, hgate], ?_, ?_, hlater⟩
    · rw [heq, hgate]
      show Function.update st'.nsat_in_mask_id st'.HAS_data.header.mask_id 0
        st.HAS_data.header.mask_id = 0
      rw [hpres]
      exact Function.update_same _ _ _
    · rw [heq, hgate]
      simp only [readMT1Body, heq, hgate, correctionPhase_skip, if_true]

/-- A state as `decode_message_type1` would present it to the body
parse: fresh record, header with `toh = 3700`, `mask_id = 3`,
`mask_flag = 1`, and a previously cached mask (`Nsat(3) = 7`). -/
def stC8 : RxState :=
  {initState with
    HAS_data := {HASData.default with header :=
      {MT1Header.default with toh := 3700, mask_id := 3, mask_flag := true}}
    nsat_in_mask_id := Function.update initState.nsat_in_mask_id 3 7}

/-- A later correction-only record (`mask_flag = 0`, `mask_id = 3`) on
a receiver whose cache entry 3 is evicted. -/
def stC8later : RxState :=
  {initState with
    HAS_data := {HASData.default with header := {MT1Header.default with mask_id := 3}}}

/-- Witness for C8: a body whose mask block reads `Nsys = 0` followed
by the gate, and the follow-up record that finds no usable mask. -/
theorem toh_over_max_invalidates_mask_witness :
    (maskPhase stC8 []).have_mask = false ∧
    (maskPhase stC8 []).st.nsat_in_mask_id 3 = 0 ∧
    readMT1Body stC8 [] = ((maskPhase stC8 []).st, true, (maskPhase stC8 []).msg) ∧
    readMT1Body stC8later [] = (stC8later, true, []) := by
  have h := toh_over_max_invalidates_mask stC8 [] (by decide) (by decide)
  exact ⟨h.1, h.2.1, h.2.2.1, h.2.2.2 stC8later [] rfl rfl⟩

/-! ### C6: IOD width selection in the orbit block -/

lemma take_append_len {n : Nat} {a : List Char} (h : a.length = n) (b : List Char) :
    (a ++ b).take n = a :=
  List.take_left' h

lemma advanceBits_append {n : Nat} {a : List Char} (h : a.length = n) (b : List Char) :
    advanceBits n (a ++ b) = some b := by
  unfold advanceBits
  rw [if_pos (by simp [← h]), List.drop_left' h]

lemma take_exact {n : Nat} {a : List Char} (h : a.length = n) : a.take n = a := by
  rw [← h, List.take_length]

lemma advanceBits_exact {n : Nat} {a : List Char} (h : a.length = n) :
    advanceBits n a = some [] := by
  unfold advanceBits
  rw [if_pos (le_of_eq h.symm), ← h, List.drop_length]

/-- A receiver state entering the orbit block with one satellite whose
mask-order position 0 carries gnss_id `g` (as after resolving a
one-system mask). -/
def stOrb (g : Nat) : RxState :=
  {initState with HAS_data := {HASData.default with
    header := {MT1Header.default with orbit_correction_flag := true}
    gnss_id_mask := [g]}}

/-- C6 amended: in the orbit block the IOD width is selected by
`gnss_id_mask[i]` where `i` is the satellite's index in mask order: 8
bits are consumed when it is GPS (0), 10 when Galileo (2), and for any
other gnss_id *no* IOD bits are consumed, nothing is raised, and the
parse continues with the delta fields (the IOD entry keeps its
allocated value 0). -/
theorem orbit_iod_width_by_sat_index (g : Nat) (v4 iodb dr da dc : List Char)
    (hv : v4.length = 4) (hdr : dr.length = 13) (hda : da.length = 12)
    (hdc : dc.length = 12) :
    (g = HAS_MSG_GPS_SYSTEM → iodb.length = 8 →
      orbitBlock (stOrb g) (v4 ++ (iodb ++ (dr ++ (da ++ dc)))) true 1 =
        ({stOrb g with HAS_data := {(stOrb g).HAS_data with
            validity_interval_index_orbit_corrections := read_has_message_body_uint8 v4
            gnss_iod := [read_has_message_body_uint16 iodb]
            delta_radial := [read_has_message_body_int16 dr]
            delta_along_track := [read_has_message_body_int16 da]
            delta_cross_track := [read_has_message_body_int16 dc]}}, [], true)) ∧
    (g = HAS_MSG_GALILEO_SYSTEM → iodb.length = 10 →
      orbitBlock (stOrb g) (v4 ++ (iodb ++ (dr ++ (da ++ dc)))) true 1 =
        ({stOrb g with HAS_data := {(stOrb g).HAS_data with
            validity_interval_index_orbit_corrections := read_has_message_body_uint8 v4
            gnss_iod := [read_has_message_body_uint16 iodb]
            delta_radial := [read_has_message_body_int16 dr]
            delta_along_track := [read_has_message_body_int16 da]
            delta_cross_track := [read_has_message_body_int16 dc]}}, [], true)) ∧
    (g ≠ HAS_MSG_GPS_SYSTEM → g ≠ HAS_MSG_GALILEO_SYSTEM →
      orbitBlock (stOrb g) (v4 ++ (dr ++ (da ++ dc))) true 1 =
        ({stOrb g with HAS_data := {(stOrb g).HAS_data with
            validity_interval_index_orbit_corrections := read_has_message_body_uint8 v4
            gnss_iod := [0]
            delta_radial := [read_has_message_body_int16 dr]
            delta_along_track := [read_has_message_body_int16 da]
            delta_cross_track := [read_has_message_body_int16 dc]}}, [], true)) := by
  have hv' : v4.length = HAS_MSG_VALIDITY_INDEX_LENGTH := hv
  have hdr' : dr.length = HAS_MSG_DELTA_RADIAL_LENGTH := hdr
  have hda' : da.length = HAS_MSG_DELTA_ALONG_TRACK_LENGTH := hda
  have hdc' : dc.length = HAS_MSG_DELTA_CROSS_TRACK_LENGTH := hdc
  refine ⟨?_, ?_, ?_⟩
  · rintro rfl hiod
    have hiod' : iodb.length = HAS_MSG_IOD_GPS_LENGTH := hiod
    simp +decide only [orbitBlock, stepLoop, orbitSatStep, seqStep, orbitIodGps, orbitIodGal, orbitDeltas,
      take_append_len hv', advanceBits_append hv',
      take_append_len hiod', advanceBits_append hiod',
      take_append_len hdr', advanceBits_append hdr',
      take_append_len hda', advanceBits_append hda',
      take_exact hdc', advanceBits_exact hdc',
      stOrb, initState, List.getD_cons_zero, Bool.and_true, reduceIte,
      HAS_MSG_GPS_SYSTEM, HAS_MSG_GALILEO_SYSTEM]
    rfl
  · rintro rfl hiod
    have hiod' : iodb.length = HAS_MSG_IOD_GAL_LENGTH := hiod
    simp +decide only [orbitBlock, stepLoop, orbitSatStep, seqStep, orbitIodGps, orbitIodGal, orbitDeltas,
      take_append_len hv', advanceBits_append hv',
      take_append_len hiod', advanceBits_append hiod',
      take_append_len hdr', advanceBits_append hdr',
      take_append_len hda', advanceBits_append hda',
      take_exact hdc', advanceBits_exact hdc',
      stOrb, initState, List.getD_cons_zero, Bool.and_true, reduceIte,
      HAS_MSG_GPS_SYSTEM, HAS_MSG_GALILEO_SYSTEM]
    rfl
  · intro hgps hgal
    have hgps' : ¬ (g = 0) := by simpa [HAS_MSG_GPS_SYSTEM] using hgps
    have hgal' : ¬ (g = 2) := by simpa [HAS_MSG_GALILEO_SYSTEM] using hgal
    simp +decide only [orbitBlock, stepLoop, orbitSatStep, seqStep, orbitIodGps, orbitIodGal, orbitDeltas,
      take_append_len hv', advanceBits_append hv',
      take_append_len hdr', advanceBits_append hdr',
      take_append_len hda', advanceBits_append hda',
      take_exact hdc', advanceBits_exact hdc',
      stOrb, initState, List.getD_cons_zero, Bool.and_true, reduceIte, hgps', hgal',
      HAS_MSG_GPS_SYSTEM, HAS_MSG_GALILEO_SYSTEM]
    rfl

/-- Witness for the amended C6 at concrete field contents. -/
theorem orbit_iod_width_by_sat_index_witness :
    orbitBlock (stOrb 5) ("0101".toList ++ ("0000000000011".toList ++
        ("000000000101".toList ++ "000000000111".toList))) true 1 =
      ({stOrb 5 with HAS_data := {(stOrb 5).HAS_data with
          validity_interval_index_orbit_corrections :=
            read_has_message_body_uint8 "0101".toList
          gnss_iod := [0]
          delta_radial := [read_has_message_body_int16 "0000000000011".toList]
          delta_along_track := [read_has_message_body_int16 "000000000101".toList]
          delta_cross_track := [read_has_message_body_int16 "000000000111".toList]}},
        [], true) :=
  (orbit_iod_width_by_sat_index 5 "0101".toList [] "0000000000011".toList
    "000000000101".toList "000000000111".toList (by decide) (by decide) (by decide)
    (by decide)).2.2 (by decide) (by decide)

/-- A cached one-satellite mask whose satellite belongs to the second
(Galileo) system slot, the first (GPS) slot being empty: the claim's
slot-based width would be 10 bits, the code reads
`gnss_id_mask[0] = GPS`, hence 8. -/
def stC6cx : RxState :=
  {initState with
    HAS_data := {HASData.default with header :=
      {MT1Header.default with orbit_correction_flag := true}}
    nsat_in_mask_id := Function.update initState.nsat_in_mask_id 0 1
    nsys_in_mask := Function.update initState.nsys_in_mask 0 2
    gnss_id_in_mask := Function.update initState.gnss_id_in_mask 0
      (0 :: 2 :: List.replicate 14 0)
    satellite_mask_in_mask := Function.update initState.satellite_mask_in_mask 0
      (0 :: 1 :: List.replicate 14 0)}

/-- The 49-bit orbit body of the C6 counterexample: validity `0101`,
8 IOD bits `11111111`, then 13+12+12 delta bits starting `11...`. -/
def bodyC6cx : List Char :=
  ("0101" ++ "11111111" ++ "1100000000000" ++ "000000000101" ++ "000000000111").toList

/-- Counterexample to C6 as stated: the record's only satellite belongs
to the Galileo system slot, so the claimed slot-based rule reads a
10-bit IOD (value 1023 here) and 51 body bits; the code parses the
49-bit body to completion with no error, reading an 8-bit IOD (255) —
and a gnss_id outside {GPS, Galileo} raises nothing either (see the
amended theorem's third branch). -/
theorem orbit_iod_width_counterexample :
    (readMT1Body stC6cx bodyC6cx).2.1 = true ∧
    (readMT1Body stC6cx bodyC6cx).2.2 = [] ∧
    (readMT1Body stC6cx bodyC6cx).1.HAS_data.gnss_iod = [255] ∧
    ¬ (readMT1Body stC6cx bodyC6cx).1.HAS_data.gnss_iod = [1023] := by
  refine ⟨?_, ?_, ?_, ?_⟩ <;> decide

/-! ### Frame: fields the body parser never touches

`read_MT1_body` writes only `d_HAS_data` and the mask-cache members;
it never touches the page-slot table, the matrices, the flags, or the
nav-monitor packet.  `frameOf` bundles all those untouched fields. -/

def frameOf (a : RxState) :
    (Nat → List Nat) × (Nat → List (List Nat)) × List (List Nat) × Bool × Bool ×
      NavMessagePacket :=
  (a.received_pids, a.C_matrix, a.M_matrix, a.new_message, a.enable_navdata_monitor,
    a.nav_msg_packet)

lemma stepLoop_frame_eq {f : RxState → List Char → Nat → RxState × List Char × Bool}
    (hf : ∀ st msg i, frameOf (f st msg i).1 = frameOf st) :
    ∀ {l : List Nat} {st : RxState} {msg : List Char} {st' : RxState} {msg' : List Char}
      {ok : Bool}, stepLoop f l st msg = (st', msg', ok) → frameOf st' = frameOf st := by
  intro l
  induction l with
  | nil =>
    intro st msg st' msg' ok h
    cases h
    rfl
  | cons i rest ih =>
    intro st msg st' msg' ok h
    have hstep := hf st msg i
    rcases heq : f st msg i with ⟨st1, msg1, ok1⟩
    rw [heq] at hstep
    simp only [stepLoop] at h
    rw [heq] at h
    cases ok1
    · simp only at h
      cases h
      exact hstep
    · simp only at h
      exact (ih h).trans hstep

lemma stepLoop_frame {f : RxState → List Char → Nat → RxState × List Char × Bool}
    (hf : ∀ st msg i, frameOf (f st msg i).1 = frameOf st) (l : List Nat) (st : RxState)
    (msg : List Char) : frameOf ((stepLoop f l st msg).1) = frameOf st := by
  rcases h : stepLoop f l st msg with ⟨st1, msg1, ok1⟩
  exact stepLoop_frame_eq hf h

lemma maskSysStep_frame (maskId i : Nat) (st : RxState) (msg : List Char) (Nsat : Int) :
    frameOf ((maskSysStep maskId i st msg Nsat).1) = frameOf st := by
  simp only [maskSysStep]
  repeat' split
  all_goals rfl

lemma maskSysLoop_frame_eq {maskId : Nat} :
    ∀ {l : List Nat} {st : RxState} {msg : List Char} {Nsat : Int} {st' : RxState}
      {msg' : List Char} {Ns' : Int} {ok : Bool},
      maskSysLoop maskId l st msg Nsat = (st', msg', Ns', ok) → frameOf st' = frameOf st := by
  intro l
  induction l with
  | nil =>
    intro st msg Nsat st' msg' Ns' ok h
    cases h
    rfl
  | cons i rest ih =>
    intro st msg Nsat st' msg' Ns' ok h
    have hstep := maskSysStep_frame maskId i st msg Nsat
    rcases heq : maskSysStep maskId i st msg Nsat with ⟨st1, msg1, Ns1, ok1⟩
    rw [heq] at hstep
    simp only [maskSysLoop] at h
    rw [heq] at h
    cases ok1
    · simp only at h
      cases h
      exact hstep
    · simp only at h
      exact (ih h).trans hstep

lemma maskPhase_frame (st : RxState) (msg : List Char) :
    frameOf (maskPhase st msg).st = frameOf st := by
  simp only [maskPhase]
  split
  · split
    · unfold tohGate
      split <;> rfl
    · split
      · rfl
      · rename_i msg2 hadv
        split
        · rename_i st3 msg3 Ns3 heq
          have h3 : frameOf st3 = frameOf st := (maskSysLoop_frame_eq heq).trans rfl
          split
          · exact h3
          · unfold tohGate
            split <;> exact h3
        · rename_i st3 msg3 Ns3 heq
          exact (maskSysLoop_frame_eq heq).trans rfl
  · split
    · unfold tohGate
      split <;> rfl
    · unfold tohGate
      split <;> rfl

lemma seqStep_frame {a : RxState × List Char × Bool} {st0 : RxState}
    {g : RxState → List Char → RxState × List Char × Bool}
    (ha : frameOf a.1 = frameOf st0)
    (hg : ∀ st msg, frameOf (g st msg).1 = frameOf st) :
    frameOf (seqStep a g).1 = frameOf st0 := by
  rcases a with ⟨st, msg, ok⟩
  cases ok
  · exact ha
  · exact (hg st msg).trans ha

lemma orbitIodGps_frame (i : Nat) (st : RxState) (msg : List Char) :
    frameOf (orbitIodGps i st msg).1 = frameOf st := by
  simp only [orbitIodGps]
  repeat' split
  all_goals rfl

lemma orbitIodGal_frame (i : Nat) (st : RxState) (msg : List Char) :
    frameOf (orbitIodGal i st msg).1 = frameOf st := by
  simp only [orbitIodGal]
  repeat' split
  all_goals rfl

lemma orbitDeltas_frame (i : Nat) (st : RxState) (msg : List Char) :
    frameOf (orbitDeltas i st msg).1 = frameOf st := by
  simp only [orbitDeltas]
  repeat' split
  all_goals rfl

lemma orbitSatStep_frame (st : RxState) (msg : List Char) (i : Nat) :
    frameOf (orbitSatStep st msg i).1 = frameOf st := by
  unfold orbitSatStep
  exact seqStep_frame (orbitIodGps_frame i st msg) (fun st msg =>
    seqStep_frame (orbitIodGal_frame i st msg) (fun st msg => orbitDeltas_frame i st msg))

lemma fullsetMultStep_frame (st : RxState) (msg : List Char) (i : Nat) :
    frameOf (fullsetMultStep st msg i).1 = frameOf st := by
  simp only [fullsetMultStep]
  repeat' split
  all_goals rfl

lemma fullsetSatStep_frame (st : RxState) (msg : List Char) (i : Nat) :
    frameOf (fullsetSatStep st msg i).1 = frameOf st := by
  simp only [fullsetSatStep]
  repeat' split
  all_goals rfl

lemma subsetSysStep_frame (st : RxState) (msg : List Char) (i : Nat) :
    frameOf (subsetSysStep st msg i).1 = frameOf st := by
  simp only [subsetSysStep]
  split
  · rfl
  · split
    · rfl
    · split
      · rename_i st4 msg4 heq
        exact (stepLoop_frame_eq (by
          intro st msg j
          split <;> rfl) heq).trans rfl
      · rename_i st4 msg4 heq
        have h4 : frameOf st4 = frameOf st := (stepLoop_frame_eq (by
          intro st msg j
          split <;> rfl) heq).trans rfl
        exact (stepLoop_frame (by
          intro st msg j
          split <;> rfl) _ _ _).trans h4

lemma orbitBlock_frame (st : RxState) (msg : List Char) (hm : Bool) (Nsat : Int) :
    frameOf (orbitBlock st msg hm Nsat).1 = frameOf st := by
  simp only [orbitBlock]
  split
  · split
    · rfl
    · exact (stepLoop_frame orbitSatStep_frame _ _ _).trans rfl
  · rfl

lemma fullsetBlock_frame (st : RxState) (msg : List Char) (hm : Bool) (Nsat : Int) :
    frameOf (fullsetBlock st msg hm Nsat).1 = frameOf st := by
  simp only [fullsetBlock]
  split
  · split
    · rfl
    · split
      · rename_i st1 msg1 heq
        exact (stepLoop_frame_eq fullsetMultStep_frame heq).trans rfl
      · rename_i st1 msg1 heq
        have h1 : frameOf st1 = frameOf st := (stepLoop_frame_eq fullsetMultStep_frame heq).trans rfl
        exact ((stepLoop_frame fullsetSatStep_frame _ _ _).trans rfl).trans h1
  · rfl

lemma codeBiasSigStep_frame (sys s sat : Nat) :
    ∀ (st : RxState) (msg : List Char) (c : Nat),
      frameOf (codeBiasSigStep sys s sat st msg c).1 = frameOf st := by
  intro st msg c
  simp only [codeBiasSigStep]
  repeat' split
  all_goals rfl

lemma phaseBiasSigStep_frame (sys s sat : Nat) :
    ∀ (st : RxState) (msg : List Char) (p : Nat),
      frameOf (phaseBiasSigStep sys s sat st msg p).1 = frameOf st := by
  intro st msg p
  simp only [phaseBiasSigStep]
  repeat' split
  all_goals rfl

lemma codeBiasSysLoop_frame :
    ∀ (l : List (Nat × Nat × Nat)) (sat : Nat) (st : RxState) (msg : List Char),
      frameOf ((codeBiasSysLoop l sat st msg).1) = frameOf st := by
  intro l
  induction l with
  | nil => intro sat st msg; rfl
  | cons t rest ih =>
    intro sat st msg
    rcases t with ⟨sys, ns, nc⟩
    simp only [codeBiasSysLoop]
    split
    · rename_i st1 msg1 heq
      have h1 : frameOf st1 = frameOf st := stepLoop_frame_eq (by
        intro st msg s
        rcases h : stepLoop (codeBiasSigStep sys s (sat + s)) (List.range nc) st msg
          with ⟨st2, msg2, ok2⟩
        exact stepLoop_frame_eq (codeBiasSigStep_frame sys s (sat + s)) h) heq
      exact (ih (sat + ns) st1 msg1).trans h1
    · rename_i st1 msg1 heq
      exact stepLoop_frame_eq (by
        intro st msg s
        rcases h : stepLoop (codeBiasSigStep sys s (sat + s)) (List.range nc) st msg
          with ⟨st2, msg2, ok2⟩
        exact stepLoop_frame_eq (codeBiasSigStep_frame sys s (sat + s)) h) heq

lemma phaseBiasSysLoop_frame :
    ∀ (l : List (Nat × Nat × Nat)) (sat : Nat) (st : RxState) (msg : List Char),
      frameOf ((phaseBiasSysLoop l sat st msg).1) = frameOf st := by
  intro l
  induction l with
  | nil => intro sat st msg; rfl
  | cons t rest ih =>
    intro sat st msg
    rcases t with ⟨sys, ns, np⟩
    simp only [phaseBiasSysLoop]
    split
    · rename_i st1 msg1 heq
      have h1 : frameOf st1 = frameOf st := stepLoop_frame_eq (by
        intro st msg s
        rcases h : stepLoop (phaseBiasSigStep sys s (sat + s)) (List.range np) st msg
          with ⟨st2, msg2, ok2⟩
        exact stepLoop_frame_eq (phaseBiasSigStep_frame sys s (sat + s)) h) heq
      exact (ih (sat + ns) st1 msg1).trans h1
    · rename_i st1 msg1 heq
      exact stepLoop_frame_eq (by
        intro st msg s
        rcases h : stepLoop (phaseBiasSigStep sys s (sat + s)) (List.range np) st msg
          with ⟨st2, msg2, ok2⟩
        exact stepLoop_frame_eq (phaseBiasSigStep_frame sys s (sat + s)) h) heq

lemma codeBiasBlock_frame (st : RxState) (msg : List Char) (hm : Bool) (Nsat : Int) :
    frameOf (codeBiasBlock st msg hm Nsat).1 = frameOf st := by
  simp only [codeBiasBlock]
  split
  · split
    · rfl
    · exact (codeBiasSysLoop_frame _ _ _ _).trans rfl
  · rfl

lemma phaseBiasBlock_frame (st : RxState) (msg : List Char) (hm : Bool) (Nsat : Int) :
    frameOf (phaseBiasBlock st msg hm Nsat).1 = frameOf st := by
  simp only [phaseBiasBlock]
  split
  · split
    · rfl
    · exact (phaseBiasSysLoop_frame _ _ _ _).trans rfl
  · rfl

lemma subsetBlock_frame (st : RxState) (msg : List Char) (hm : Bool) :
    frameOf (subsetBlock st msg hm).1 = frameOf st := by
  simp only [subsetBlock]
  split
  · split
    · rfl
    · split
      · rfl
      · repeat' split
        all_goals exact (stepLoop_frame subsetSysStep_frame _ _ _).trans rfl
  · rfl

lemma frame_eq_of {e : RxState × List Char × Bool} {st st' : RxState} {msg' : List Char}
    {ok : Bool} (he : frameOf e.1 = frameOf st) (h : e = (st', msg', ok)) :
    frameOf st' = frameOf st := by
  rw [h] at he
  exact he

lemma frame_eq_of4 {e : RxState × List Char × Bool × Bool} {st st' : RxState}
    {msg' : List Char} {hm ok : Bool} (he : frameOf e.1 = frameOf st)
    (h : e = (st', msg', hm, ok)) : frameOf st' = frameOf st := by
  rw [h] at he
  exact he

lemma correctionPhase_frame (st : RxState) (msg : List Char) (hm : Bool) (Nsat : Int) :
    frameOf (correctionPhase st msg hm Nsat).1 = frameOf st := by
  simp only [correctionPhase]
  split
  · rename_i st1 msg1 heq
    exact frame_eq_of (orbitBlock_frame st msg hm Nsat) heq
  · rename_i st1 msg1 heq
    have h1 : frameOf st1 = frameOf st := frame_eq_of (orbitBlock_frame st msg hm Nsat) heq
    split
    · rename_i st2 msg2 heq2
      exact (frame_eq_of (fullsetBlock_frame st1 msg1 hm Nsat) heq2).trans h1
    · rename_i st2 msg2 heq2
      have h2 : frameOf st2 = frameOf st1 := frame_eq_of (fullsetBlock_frame st1 msg1 hm Nsat) heq2
      split
      · rename_i st3 msg3 hm3 heq3
        exact ((frame_eq_of4 (subsetBlock_frame st2 msg2 hm) heq3).trans h2).trans h1
      · rename_i st3 msg3 hm3 heq3
        have h3 : frameOf st3 = frameOf st2 := frame_eq_of4 (subsetBlock_frame st2 msg2 hm) heq3
        split
        · rename_i st4 msg4 heq4
          exact (((frame_eq_of (codeBiasBlock_frame st3 msg3 hm3 Nsat) heq4).trans h3).trans
            h2).trans h1
        · rename_i st4 msg4 heq4
          have h4 : frameOf st4 = frameOf st3 :=
            frame_eq_of (codeBiasBlock_frame st3 msg3 hm3 Nsat) heq4
          exact ((((phaseBiasBlock_frame st4 msg4 hm3 Nsat).trans h4).trans h3).trans h2).trans h1

/-- `read_MT1_body` never touches the page-slot table, the matrices,
the message flag, the monitor switch, or the nav packet. -/
lemma readMT1Body_frame (st : RxState) (msg : List Char) :
    frameOf (readMT1Body st msg).1 = frameOf st := by
  simp only [readMT1Body]
  split
  · exact (correctionPhase_frame _ _ _ _).trans (maskPhase_frame st msg)
  · exact maskPhase_frame st msg

/-! ### C7: what a Malformed parse does and does not clean up -/

/-- C7 amended, part 1: reading `Nsysprime = 0` in the clock-subset
block clears `have_mask` for the remaining blocks and evicts the mask
cache entry of the record's mask_id (`Nsat(mask_id) := 0`), without
throwing; part 2: after a successful reconstruction the page slot is
reset (pids cleared, C zeroed) no matter how the body parse ends, and a
body parse that throws makes the decode call return -1 (the record is
dropped). -/
theorem malformed_record_dropped :
    (∀ (st : RxState) (v4 rest : List Char),
      st.HAS_data.header.clock_subset_flag = true → v4.length = 4 →
      subsetBlock st (v4 ++ (('0' :: '0' :: '0' :: '0' :: []) ++ rest)) true =
        ({st with
            HAS_data := {st.HAS_data with
              validity_interval_index_clock_subset_corrections :=
                read_has_message_body_uint8 v4
              Nsysprime := 0
              gnss_id_clock_subset := []
              delta_clock_c0_multiplier_clock_subset := []
              satellite_submask := []
              iod_change_flag_clock_subset := []
              delta_clock_c0_clock_subset := []}
            nsat_in_mask_id :=
              Function.update st.nsat_in_mask_id st.HAS_data.header.mask_id 0},
          rest, false, true)) ∧
    (∀ (st : RxState) (mid ms : Nat),
      (decodeAfterRS st mid ms).st.received_pids mid = [] ∧
      (decodeAfterRS st mid ms).st.C_matrix mid = zeroCSlot ∧
      ((readMT1Body (decodeParseStart st mid ms)
          ((decodedBits st.M_matrix ms).drop GALILEO_CNAV_MT1_HEADER_BITS)).2.1 = false →
        (decodeAfterRS st mid ms).res = -1)) := by
  constructor
  · intro st v4 rest hflag hv
    have hv' : v4.length = HAS_MSG_VALIDITY_INDEX_LENGTH := hv
    have hz : (('0' : Char) :: '0' :: '0' :: '0' :: []).length = HAS_MSG_NSYSPRIME_LENGTH := rfl
    simp +decide only [subsetBlock, hflag, Bool.and_true, reduceIte,
      take_append_len hv', advanceBits_append hv',
      take_append_len hz, advanceBits_append hz, stepLoop, List.range_zero]
    rfl
  · intro st mid ms
    have h1 : (decodeParseStart st mid ms).received_pids =
        Function.update st.received_pids mid [] := by
      simp only [decodeParseStart]
      split <;> rfl
    have h2 : (decodeParseStart st mid ms).C_matrix =
        Function.update st.C_matrix mid zeroCSlot := by
      simp only [decodeParseStart]
      split <;> rfl
    rcases hb : readMT1Body (decodeParseStart st mid ms)
        ((decodedBits st.M_matrix ms).drop GALILEO_CNAV_MT1_HEADER_BITS)
      with ⟨st1, ok1, rest1⟩
    have hframe := readMT1Body_frame (decodeParseStart st mid ms)
      ((decodedBits st.M_matrix ms).drop GALILEO_CNAV_MT1_HEADER_BITS)
    rw [hb] at hframe
    have hrp : st1.received_pids = (decodeParseStart st mid ms).received_pids :=
      congrArg (fun t => t.1) hframe
    have hcm : st1.C_matrix = (decodeParseStart st mid ms).C_matrix :=
      congrArg (fun t => t.2.1) hframe
    refine ⟨?_, ?_, ?_⟩
    · show ((decodeAfterRS st mid ms).st).received_pids mid = []
      simp only [decodeAfterRS]
      rw [hb]
      show st1.received_pids mid = []
      rw [hrp, h1]
      exact Function.update_same _ _ _
    · show ((decodeAfterRS st mid ms).st).C_matrix mid = zeroCSlot
      simp only [decodeAfterRS]
      rw [hb]
      show st1.C_matrix mid = zeroCSlot
      rw [hcm, h2]
      exact Function.update_same _ _ _
    · intro hfail
      have hok : ok1 = false := hfail
      have hres : (decodeAfterRS st mid ms).res = (if ok1 then (0 : Int) else -1) := by
        simp only [decodeAfterRS]
        rw [hb]
      rw [hres, hok]
      rfl

/-- A record carrying a clock-subset block on a cached mask
(`mask_id = 2`, `Nsat = 5`), used to witness the Nsysprime = 0 path. -/
def stSubW : RxState :=
  {initState with
    HAS_data := {HASData.default with header :=
      {MT1Header.default with clock_subset_flag := true, mask_id := 2}}
    nsat_in_mask_id := Function.update initState.nsat_in_mask_id 2 5}

/-- Witness for the amended C7: the Nsysprime = 0 record evicts cache
entry 2 and does not throw, and a decode on the initial state leaves
the slot reset. -/
theorem malformed_record_dropped_witness :
    (subsetBlock stSubW ("0101".toList ++ (('0' :: '0' :: '0' :: '0' :: []) ++ [])) true).2.2.1
        = false ∧
    (subsetBlock stSubW ("0101".toList ++ (('0' :: '0' :: '0' :: '0' :: []) ++ []))
        true).1.nsat_in_mask_id 2 = 0 ∧
    (decodeAfterRS initState 0 1).st.received_pids 0 = [] := by
  have h := malformed_record_dropped.1 stSubW "0101".toList [] (by rfl) (by rfl)
  refine ⟨by rw [h], by rw [h]; decide,
    (malformed_record_dropped.2 initState 0 1).1⟩

/-- The record of the C7 counterexample: `mask_id = 3`, a mask block
declaring one Galileo system with one satellite and one signal,
followed by an orbit block that underruns (only 2 bits remain where a
10-bit Galileo IOD is required). -/
def stC7 : RxState :=
  {initState with HAS_data := {HASData.default with header :=
    {MT1Header.default with mask_id := 3, mask_flag := true, orbit_correction_flag := true}}}

def bodyC7 : List Char :=
  ("0001" ++ "0010" ++ String.mk (List.replicate 39 '0') ++ "1" ++ "0000000000000001" ++
    "0" ++ "1" ++ "000" ++ "000000" ++ "0101" ++ "11").toList

/-- Counterexample to C7 as stated: this record's mask block caches
`Nsat(3) = 1`, then the orbit block underruns (Malformed, parse fails),
yet the mask cache entry for mask_id 3 is *not* evicted — the claim
says every Malformed evicts it. -/
theorem malformed_underrun_keeps_cache :
    (readMT1Body stC7 bodyC7).2.1 = false ∧
    (readMT1Body stC7 bodyC7).1.nsat_in_mask_id 3 = 1 ∧
    ¬ (readMT1Body stC7 bodyC7).1.nsat_in_mask_id 3 = 0 := by
  refine ⟨?_, ?_, ?_⟩ <;> decide

/-! ### C3: the clock-subset delta store overwrites index i -/

/-- The C3 record: a clock-subset block over one cached system whose
40-bit satellite mask has exactly two set bits (`satellite_mask = [3]`). -/
def stC3 : RxState :=
  {initState with HAS_data := {HASData.default with
    header := {MT1Header.default with clock_subset_flag := true}
    satellite_mask := [3]}}

/-- validity 4 bits, Nsysprime = 1, gnss_id = 2, multiplier 2 bits,
submask "11", then two 13-bit deltas with values 1 and 2. -/
def bodyC3 : List Char :=
  ("0000" ++ "0001" ++ "0010" ++ "00" ++ "11" ++
    "0000000000001" ++ "0000000000010").toList

/-- C3: the parse of the C3 record succeeds and consumes the whole
block; the submask records the two selected satellites ([[1, 1]]), two
13-bit deltas (1 then 2) are read from the stream — yet the stored
delta vector is `[2]`: every delta of subsystem i is written to
`delta_clock_c0_clock_subset[i]`, so only the last selected satellite's
delta survives, refuting "one stored delta per selected satellite". -/
theorem clock_subset_delta_overwritten :
    (subsetBlock stC3 bodyC3 true).2.2.2 = true ∧
    (subsetBlock stC3 bodyC3 true).2.1 = [] ∧
    (subsetBlock stC3 bodyC3 true).1.HAS_data.satellite_submask = [[1, 1]] ∧
    (subsetBlock stC3 bodyC3 true).1.HAS_data.delta_clock_c0_clock_subset = [2] ∧
    ¬ (subsetBlock stC3 bodyC3 true).1.HAS_data.delta_clock_c0_clock_subset = [1, 2] := by
  refine ⟨?_, ?_, ?_, ?_, ?_⟩ <;> decide

/-! ### C5: what a screened page does and does not leave unchanged -/

/-- Scaffold for building concrete reachable states: the state after a
`process_HAS_page` call, the input state if the call threw. -/
def processOk (rs : RSOracle) (st : RxState) (p : Page) : RxState :=
  match processHASPage rs st p with
  | .ok (st', _) => st'
  | .error _ => st

/-- A valid page of message_id 5 in a six-page message. -/
def pageC5 (pid : Nat) : Page := ⟨0, 1, 5, 6, pid, List.replicate 424 '0'⟩

/-- A page failing input screening (`has_status = 3`), still carrying
`message_id = 5` and `message_size = 3`. -/
def pageC5bad : Page := ⟨3, 1, 5, 3, 7, []⟩

/-- Three pages of message 5 accumulated from the initial state. -/
def stC5 : RxState :=
  processOk rsId (processOk rsId (processOk rsId initState (pageC5 10)) (pageC5 20))
    (pageC5 25)

/-- Counterexample to C5 as stated: `pageC5bad` fails screening
(`has_status ∉ {0, 1}`), yet processing it on `stC5` empties the page
slot of message_id 5: the completion check and the decode attempt run
on the page's message_id/message_size even for screened pages, and here
the erasure count exceeds 223, so the slot is reset. -/
theorem screened_page_resets_slot :
    ¬ (pageC5bad.has_status = 0 ∨ pageC5bad.has_status = 1) ∧
    stC5.received_pids 5 = [10, 20, 25] ∧
    (processOk rsId stC5 pageC5bad).received_pids 5 = [] ∧
    ¬ (processOk rsId stC5 pageC5bad).received_pids 5 = stC5.received_pids 5 := by
  refine ⟨?_, ?_, ?_, ?_⟩ <;> decide

/-- C5 amended: a screened page leaves the state unchanged *provided*
the pid count cached for its message_id differs from its message_size
(so the completion check fails) and no output was pending.  The
screening conditions are those of the code: bad status, page_id 0,
message_type ≠ 1, or message_id out of range. -/
theorem screened_page_noop (rs : RSOracle) (st : RxState) (p : Page)
    (hscreen : ¬ (p.has_status = 0 ∨ p.has_status = 1) ∨ p.message_page_id = 0 ∨
      p.message_type ≠ 1 ∨ HAS_MSG_NUMBER_MESSAGE_IDS ≤ p.message_id)
    (hlen : (st.received_pids p.message_id).length ≠ p.message_size)
    (hnm : st.new_message = false) :
    processHASPage rs st p = .ok (st, []) := by
  have hacc : accumulatePage st p = .ok st := by
    unfold accumulatePage
    split_ifs with h1 h2 h3 h4 h5 <;>
      first
      | rfl
      | (exfalso
         rcases hscreen with h | h | h | h
         · exact h h1
         · exact h2 h
         · exact h h3
         · omega)
  have hst : ({st with new_message := false} : RxState) = st := by
    rw [← hnm]
  unfold processHASPage
  rw [hacc]
  show (if ((({st with new_message := false} : RxState)).received_pids p.message_id).length
      = p.message_size then _ else _) = _
  rw [hst, if_neg hlen]

/-- The amended C5 at a concrete screened page on the initial state. -/
theorem screened_page_noop_witness :
    processHASPage rsId initState ⟨2, 1, 0, 2, 1, []⟩ = .ok (initState, []) :=
  screened_page_noop rsId initState ⟨2, 1, 0, 2, 1, []⟩ (Or.inl (by decide)) (by decide) rfl

/-! ### C4: which failures the handler does and does not contain -/

/-- Counterexample to C4 as stated: a page passing all screening but
carrying a 10-character payload makes the octet loop call
`substr(16, 8)` past the end; the resulting `std::out_of_range` is not
`boost::bad_any_cast` — the only exception the handler catches — so it
escapes the handler. -/
theorem page_error_escapes_handler :
    msgHandler rsId initState ⟨0, 1, 0, 2, 1, List.replicate 10 '0'⟩ =
      .error .outOfRange := by
  rfl

lemma pageByte_ok (payload : List Char) (k : Nat)
    (hlen : payload.length = 8 * GALILEO_CNAV_OCTETS_IN_SUBPAGE)
    (hchars : ∀ c ∈ payload, c = '0' ∨ c = '1')
    (hk : k < GALILEO_CNAV_OCTETS_IN_SUBPAGE) :
    pageByte payload k = .ok (bitsVal ((payload.drop (8 * k)).take 8)) := by
  unfold pageByte
  rw [if_neg (by rw [hlen]; omega), if_pos]
  exact List.all_eq_true.2 fun c hc => by
    rcases hchars c (List.mem_of_mem_drop (List.mem_of_mem_take hc)) with h | h <;>
      simp [h]

lemma pageBytesLoop_ok (payload : List Char) (ks : List Nat)
    (hlen : payload.length = 8 * GALILEO_CNAV_OCTETS_IN_SUBPAGE)
    (hchars : ∀ c ∈ payload, c = '0' ∨ c = '1')
    (hks : ∀ k ∈ ks, k < GALILEO_CNAV_OCTETS_IN_SUBPAGE) :
    ∃ bs, pageBytesLoop payload ks = .ok bs := by
  induction ks with
  | nil => exact ⟨[], rfl⟩
  | cons k rest ih =>
    obtain ⟨bs, hbs⟩ := ih fun j hj => hks j (List.mem_cons_of_mem k hj)
    refine ⟨bitsVal ((payload.drop (8 * k)).take 8) :: bs, ?_⟩
    unfold pageBytesLoop
    rw [pageByte_ok payload k hlen hchars (hks k (List.mem_cons_self k rest)), hbs]

/-- C4 amended: for every page whose payload is well-formed (424
characters, each '0' or '1'), the handler returns normally whatever the
state, the oracle and the header fields — the only escape hatch is a
malformed payload string. -/
theorem handler_ok_on_wellformed_payload (rs : RSOracle) (st : RxState) (p : Page)
    (hlen : p.has_message_string.length = 8 * GALILEO_CNAV_OCTETS_IN_SUBPAGE)
    (hchars : ∀ c ∈ p.has_message_string, c = '0' ∨ c = '1') :
    ∃ r, msgHandler rs st p = .ok r := by
  have hacc : ∃ st', accumulatePage st p = .ok st' := by
    obtain ⟨bs, hbs⟩ := pageBytesLoop_ok p.has_message_string
      (List.range GALILEO_CNAV_OCTETS_IN_SUBPAGE) hlen hchars
      (fun k hk => List.mem_range.1 hk)
    have hpb : pageBytes p.has_message_string = Except.ok bs := hbs
    unfold accumulatePage
    split_ifs with h1 h2 h3 h4 h5 <;>
      first
      | exact ⟨st, rfl⟩
      | (rw [hpb]; exact ⟨_, rfl⟩)
  obtain ⟨st', hst'⟩ := hacc
  have hproc : ∃ q, processHASPage rs st p = .ok q := by
    unfold processHASPage
    rw [hst']
    dsimp only
    split_ifs with h h2 <;> exact ⟨_, rfl⟩
  obtain ⟨q, hq⟩ := hproc
  unfold msgHandler
  rw [hq]
  dsimp only
  split_ifs with h <;> exact ⟨_, rfl⟩

/-- The amended C4 at a concrete all-zero page on the initial state. -/
theorem handler_ok_on_wellformed_payload_witness :
    ∃ r, msgHandler rsId initState ⟨0, 1, 0, 2, 1, List.replicate 424 '0'⟩ = .ok r :=
  handler_ok_on_wellformed_payload rsId initState ⟨0, 1, 0, 2, 1, List.replicate 424 '0'⟩
    (by decide) (by decide)

/-! ### C1: the publish gate of the outbound PVT port -/

lemma decodeParseStart_new_message (st : RxState) (mid ms : Nat) :
    (decodeParseStart st mid ms).new_message = st.new_message := by
  unfold decodeParseStart
  dsimp only
  split <;> rfl

lemma decodeAfterRS_new_message (st : RxState) (mid ms : Nat) :
    (decodeAfterRS st mid ms).st.new_message = st.new_message := by
  unfold decodeAfterRS
  dsimp only
  rcases hb : readMT1Body (decodeParseStart st mid ms)
      ((decodedBits st.M_matrix ms).drop GALILEO_CNAV_MT1_HEADER_BITS)
    with ⟨st3, ok3, r3⟩
  have hframe := readMT1Body_frame (decodeParseStart st mid ms)
    ((decodedBits st.M_matrix ms).drop GALILEO_CNAV_MT1_HEADER_BITS)
  rw [hb] at hframe
  have h3 : st3.new_message = (decodeParseStart st mid ms).new_message :=
    congrArg (fun t => t.2.2.2.1) hframe
  exact h3.trans (decodeParseStart_new_message st mid ms)

lemma decode_new_message (rs : RSOracle) (st : RxState) (mid ms : Nat) :
    (decodeMessageType1 rs st mid ms).st.new_message = st.new_message := by
  unfold decodeMessageType1
  dsimp only
  split_ifs with h
  · rfl
  · split
    · rfl
    · exact (decodeAfterRS_new_message _ _ _).trans rfl

/-- What `process_HAS_page` hands to the handler's publish test, as a
function of the decode outcome: the record is attached (`some`) exactly
when the decode returned 0 and the cached `Nsat` of the decoded
header's mask_id is nonzero, and the pending-output flag is cleared in
the published state. -/
def publishGate (d : DecodeOut) : RxState × Option HASData × List NavMessagePacket :=
  if d.res = 0 ∧ d.st.nsat_in_mask_id d.st.HAS_data.header.mask_id ≠ 0 then
    ({d.st with new_message := false}, some d.st.HAS_data, d.monitor)
  else (d.st, none, d.monitor)

/-- C1: the handler's outbound record.  For every page whose
accumulation succeeds, the handler publishes nothing unless the page
completes its message (pid count = message_size); when it does, the
decode runs and the record goes out through `publishGate`: exactly one
record, and only when the decode result is 0 and `Nsat(mask_id) ≠ 0` —
a failed decode or a zero satellite count publishes nothing. -/
theorem has_record_publish_gate (rs : RSOracle) (st st1 : RxState) (p : Page)
    (hacc : accumulatePage st p = .ok st1) :
    msgHandler rs st p =
      .ok (if (st1.received_pids p.message_id).length = p.message_size then
        publishGate
          (decodeMessageType1 rs {st1 with new_message := false} p.message_id p.message_size)
      else ({st1 with new_message := false}, none, [])) := by
  have hp : processHASPage rs st p =
      .ok (if (st1.received_pids p.message_id).length = p.message_size then
        (fun d =>
          if d.res = 0 ∧ d.st.nsat_in_mask_id d.st.HAS_data.header.mask_id ≠ 0 then
            ({d.st with new_message := true}, d.monitor)
          else (d.st, d.monitor))
          (decodeMessageType1 rs {st1 with new_message := false} p.message_id p.message_size)
      else ({st1 with new_message := false}, [])) := by
    unfold processHASPage
    rw [hacc]
    dsimp only
    split_ifs with hc hg <;> rfl
  by_cases hc : (st1.received_pids p.message_id).length = p.message_size
  · rw [if_pos hc] at hp ⊢
    dsimp only at hp
    by_cases hg : (decodeMessageType1 rs {st1 with new_message := false} p.message_id
          p.message_size).res = 0 ∧
        (decodeMessageType1 rs {st1 with new_message := false} p.message_id
            p.message_size).st.nsat_in_mask_id
          (decodeMessageType1 rs {st1 with new_message := false} p.message_id
              p.message_size).st.HAS_data.header.mask_id ≠ 0
    · rw [if_pos hg] at hp
      rw [show publishGate (decodeMessageType1 rs {st1 with new_message := false}
            p.message_id p.message_size) =
          ({(decodeMessageType1 rs {st1 with new_message := false} p.message_id
              p.message_size).st with new_message := false},
            some (decodeMessageType1 rs {st1 with new_message := false} p.message_id
              p.message_size).st.HAS_data,
            (decodeMessageType1 rs {st1 with new_message := false} p.message_id
              p.message_size).monitor) from by unfold publishGate; rw [if_pos hg]]
      unfold msgHandler
      rw [hp]
      dsimp only
      rw [if_pos rfl]
    · rw [if_neg hg] at hp
      rw [show publishGate (decodeMessageType1 rs {st1 with new_message := false}
            p.message_id p.message_size) =
          ((decodeMessageType1 rs {st1 with new_message := false} p.message_id
              p.message_size).st, none,
            (decodeMessageType1 rs {st1 with new_message := false} p.message_id
              p.message_size).monitor) from by unfold publishGate; rw [if_neg hg]]
      unfold msgHandler
      rw [hp]
      dsimp only
      rw [decode_new_message]
      dsimp only
      rw [if_neg Bool.false_ne_true]
  · rw [if_neg hc] at hp ⊢
    unfold msgHandler
    rw [hp]
    dsimp only
    rw [if_neg Bool.false_ne_true]

/-- A first page of a two-page message: valid, not completing. -/
def pageC1 : Page := ⟨0, 1, 0, 2, 1, List.replicate 424 '0'⟩

/-- The state after accumulating `pageC1` on the initial state. -/
def stC1 : RxState := (accumulatePage initState pageC1).toOption.getD initState

/-- The C1 gate at a concrete non-completing page: one accumulated page
of a two-page message, no decode, nothing published. -/
theorem has_record_publish_gate_witness :
    msgHandler rsNone initState pageC1 =
      .ok (if (stC1.received_pids pageC1.message_id).length = pageC1.message_size then
        publishGate
          (decodeMessageType1 rsNone {stC1 with new_message := false} pageC1.message_id
            pageC1.message_size)
      else ({stC1 with new_message := false}, none, [])) :=
  has_record_publish_gate rsNone initState stC1 pageC1 (by rfl)

/-! ### C10: the nav-monitor packet's fixed fields and emission point -/

lemma accumulatePage_nav (st : RxState) (p : Page) (st1 : RxState)
    (h : accumulatePage st p = .ok st1) : st1.nav_msg_packet = st.nav_msg_packet := by
  unfold accumulatePage at h
  split_ifs at h
  all_goals first
  | (cases h; rfl)
  | (rcases hpb : pageBytes p.has_message_string with e | bs <;>
      (rw [hpb] at h; cases h; try rfl))

lemma decodeParseStart_nav (st : RxState) (mid ms : Nat) :
    (decodeParseStart st mid ms).nav_msg_packet.prn = st.nav_msg_packet.prn ∧
    (decodeParseStart st mid ms).nav_msg_packet.tow_at_current_symbol_ms =
      st.nav_msg_packet.tow_at_current_symbol_ms := by
  unfold decodeParseStart
  dsimp only
  split <;> exact ⟨rfl, rfl⟩

lemma decodeAfterRS_nav (st : RxState) (mid ms : Nat) :
    (decodeAfterRS st mid ms).st.nav_msg_packet.prn = st.nav_msg_packet.prn ∧
    (decodeAfterRS st mid ms).st.nav_msg_packet.tow_at_current_symbol_ms =
      st.nav_msg_packet.tow_at_current_symbol_ms := by
  unfold decodeAfterRS
  dsimp only
  rcases hb : readMT1Body (decodeParseStart st mid ms)
      ((decodedBits st.M_matrix ms).drop GALILEO_CNAV_MT1_HEADER_BITS)
    with ⟨st3, ok3, r3⟩
  have hframe := readMT1Body_frame (decodeParseStart st mid ms)
    ((decodedBits st.M_matrix ms).drop GALILEO_CNAV_MT1_HEADER_BITS)
  rw [hb] at hframe
  have h3 : st3.nav_msg_packet = (decodeParseStart st mid ms).nav_msg_packet :=
    congrArg (fun t => t.2.2.2.2.2) hframe
  exact ⟨(congrArg NavMessagePacket.prn h3).trans (decodeParseStart_nav st mid ms).1,
    (congrArg NavMessagePacket.tow_at_current_symbol_ms h3).trans
      (decodeParseStart_nav st mid ms).2⟩

lemma decodeAfterRS_monitor_eq (st : RxState) (mid ms : Nat) :
    (decodeAfterRS st mid ms).monitor =
      if st.enable_navdata_monitor then
        [{st.nav_msg_packet with nav_message := decodedBits st.M_matrix ms}]
      else [] := by
  unfold decodeAfterRS
  dsimp only

lemma decode_nav (rs : RSOracle) (st : RxState) (mid ms : Nat) :
    (decodeMessageType1 rs st mid ms).st.nav_msg_packet.prn = st.nav_msg_packet.prn ∧
    (decodeMessageType1 rs st mid ms).st.nav_msg_packet.tow_at_current_symbol_ms =
      st.nav_msg_packet.tow_at_current_symbol_ms := by
  unfold decodeMessageType1
  dsimp only
  split_ifs with h
  · exact ⟨rfl, rfl⟩
  · split
    · exact ⟨rfl, rfl⟩
    · exact ⟨(decodeAfterRS_nav _ _ _).1.trans rfl, (decodeAfterRS_nav _ _ _).2.trans rfl⟩

lemma decode_monitor_mem (rs : RSOracle) (st : RxState) (mid ms : Nat) :
    ∀ pk ∈ (decodeMessageType1 rs st mid ms).monitor,
      pk.prn = st.nav_msg_packet.prn ∧
      pk.tow_at_current_symbol_ms = st.nav_msg_packet.tow_at_current_symbol_ms := by
  unfold decodeMessageType1
  dsimp only
  split_ifs with h
  · intro pk hpk
    simp at hpk
  · split
    · intro pk hpk
      simp at hpk
    · rw [decodeAfterRS_monitor_eq]
      intro pk hpk
      split at hpk
      · rw [List.mem_singleton] at hpk
        subst hpk
        exact ⟨rfl, rfl⟩
      · simp at hpk

/-- C10: the monitor packet's provenance.  (1) The constructor sets
`prn = 0` and `tow_at_current_symbol_ms = 0`; (2) a successful
`process_HAS_page` call never changes those two packet fields, and
every packet it emits on the monitor port carries exactly the state's
values — hence always 0; (3) with the monitor enabled the packet is
built and emitted from `decode_message_type1` right after the columns
are reconstructed, unconditionally in the body-parse outcome, so a
record later dropped as malformed is still published to the monitor. -/
theorem monitor_packet_prn_tow_zero :
    initState.nav_msg_packet.prn = 0 ∧
    initState.nav_msg_packet.tow_at_current_symbol_ms = 0 ∧
    (∀ (rs : RSOracle) (st : RxState) (p : Page) (r : RxState × List NavMessagePacket),
      processHASPage rs st p = .ok r →
      r.1.nav_msg_packet.prn = st.nav_msg_packet.prn ∧
      r.1.nav_msg_packet.tow_at_current_symbol_ms =
        st.nav_msg_packet.tow_at_current_symbol_ms ∧
      ∀ pk ∈ r.2, pk.prn = st.nav_msg_packet.prn ∧
        pk.tow_at_current_symbol_ms = st.nav_msg_packet.tow_at_current_symbol_ms) ∧
    (∀ (st : RxState) (mid ms : Nat), st.enable_navdata_monitor = true →
      (decodeAfterRS st mid ms).monitor =
        [{st.nav_msg_packet with nav_message := decodedBits st.M_matrix ms}]) := by
  refine ⟨rfl, rfl, ?_, ?_⟩
  · intro rs st p r h
    unfold processHASPage at h
    rcases ha : accumulatePage st p with e | st1 <;> rw [ha] at h
    · cases h
    · have hnav : st1.nav_msg_packet = st.nav_msg_packet := accumulatePage_nav st p st1 ha
      dsimp only at h
      split_ifs at h with hc hg
      · cases h
        refine ⟨((decode_nav rs _ _ _).1.trans (congrArg NavMessagePacket.prn hnav)),
          ((decode_nav rs _ _ _).2.trans
            (congrArg NavMessagePacket.tow_at_current_symbol_ms hnav)), ?_⟩
        intro pk hpk
        have := decode_monitor_mem rs {st1 with new_message := false} p.message_id
          p.message_size pk hpk
        exact ⟨this.1.trans (congrArg NavMessagePacket.prn hnav),
          this.2.trans (congrArg NavMessagePacket.tow_at_current_symbol_ms hnav)⟩
      · cases h
        refine ⟨((decode_nav rs _ _ _).1.trans (congrArg NavMessagePacket.prn hnav)),
          ((decode_nav rs _ _ _).2.trans
            (congrArg NavMessagePacket.tow_at_current_symbol_ms hnav)), ?_⟩
        intro pk hpk
        have := decode_monitor_mem rs {st1 with new_message := false} p.message_id
          p.message_size pk hpk
        exact ⟨this.1.trans (congrArg NavMessagePacket.prn hnav),
          this.2.trans (congrArg NavMessagePacket.tow_at_current_symbol_ms hnav)⟩
      · cases h
        refine ⟨congrArg NavMessagePacket.prn hnav,
          congrArg NavMessagePacket.tow_at_current_symbol_ms hnav, ?_⟩
        intro pk hpk
        simp at hpk
  · intro st mid ms hmon
    rw [decodeAfterRS_monitor_eq, if_pos hmon]

/-- C10's emission clause at a concrete state: monitor enabled, one
all-zero information row — the packet goes out with `prn = 0` and
`tow = 0` whatever the body parse then does. -/
theorem monitor_packet_prn_tow_zero_witness :
    initState.nav_msg_packet.prn = 0 ∧
    (decodeAfterRS {initState with enable_navdata_monitor := true} 0 1).monitor =
      [{initState.nav_msg_packet with
        nav_message := decodedBits initState.M_matrix 1}] := by
  refine ⟨monitor_packet_prn_tow_zero.1, ?_⟩
  have h := monitor_packet_prn_tow_zero.2.2.2 {initState with enable_navdata_monitor := true}
    0 1 rfl
  exact h.trans rfl

end GalileoE6Has
